import Mathlib

/-!
# Multitouch gesture demo: gesture state machine and entity motion

A shallow embedding of `src/v2/script.js`, `src/v3/script.js` and `src/v3/util.js`.

* JavaScript numbers are read as elements of a linearly ordered field `α`
  (exact arithmetic; evaluate at `ℚ`).  `Math.hypot`, the only irrational
  operation, is passed in as the function `hypot`.
* The rounding of IEEE doubles is not modelled.  It does not bear on the
  statements about definedness, counting, clamping and wrapping at 0 and 1.
  It does bear on the sign and the vanishing of `rectGrowth`: in doubles
  `x - (x + w / 2)` is not always `-(w / 2)`.  The lemmas on those are marked
  as holding in exact arithmetic and say nothing about the rounded results.
* `settings.tracker` (a mutable object) and the module-level `state` are
  threaded explicitly as a `World`.
* The render hook `Things.use` is a side effect; `use` returns, next to the
  new world, the sequence of entities handed to it.
* `Things.checkIntersection` is passed in as the function `checkIntersection`.
-/

namespace Multitouch

/-! ## Geometry (ixfx `geometry.js`, `numbers.js`) -/

/-- A point `{x, y}`. -/
structure Point (α : Type) where
  x : α
  y : α
deriving DecidableEq, Repr

/-- A positioned rectangle `{x, y, width, height}`. -/
structure Rect (α : Type) where
  x : α
  y : α
  width : α
  height : α
deriving DecidableEq, Repr

/-- A line `{a, b}` between two points. -/
structure Line (α : Type) where
  a : Point α
  b : Point α
deriving DecidableEq, Repr

/-- An entity: `x`, `y` and `selected` are the fields the scripts read and
write; `id`, `size` and `el` stand for the attributes owned by `thing.js`,
which the scripts only ever copy (`...t`). -/
structure Thing (α : Type) where
  id : Nat
  x : α
  y : α
  selected : Bool
  size : α
  el : Nat
deriving DecidableEq, Repr

section Geometry

variable {α : Type} [LinearOrderedField α]

/-- The function `Numbers.clamp(v, min, max)`. -/
def Numbers.clamp (v min max : α) : α :=
  if v < min then min else if v > max then max else v

/-- The loop of `wrap` in ixfx, run for at most `fuel` rounds:
`while (v <= min || v >= max) { if (v === max) break; if (v === min) break;
if (v > max) v = min + (v - max); else if (v < min) v = max - (min - v); }`. -/
def Numbers.wrapLoop (min max : α) : Nat → α → α
  | 0, v => v
  | fuel + 1, v =>
    if v ≤ min ∨ v ≥ max then
      if v = max then v
      else if v = min then v
      else if v > max then Numbers.wrapLoop min max fuel (min + (v - max))
      else if v < min then Numbers.wrapLoop min max fuel (max - (min - v))
      else Numbers.wrapLoop min max fuel v
    else v

/-- The function `wrap(v, min, max)` of ixfx: `min` and `max` both map to `min`,
other values are brought into the range one span at a time. The number of
rounds the loop can need is `⌈|v - min| / (max - min)⌉ + 1`. -/
def Numbers.wrap [FloorRing α] (v min max : α) : α :=
  if v = min then min
  else if v = max then min
  else Numbers.wrapLoop min max (Int.toNat ⌈|v - min| / (max - min)⌉ + 1) v

/-- Componentwise sum, `Points.sum` / `Vectors.sum` on cartesian vectors. -/
def Points.sum (a b : Point α) : Point α := ⟨a.x + b.x, a.y + b.y⟩

/-- Componentwise difference, `Points.subtract` / `Vectors.subtract`. -/
def Points.subtract (a b : Point α) : Point α := ⟨a.x - b.x, a.y - b.y⟩

/-- Componentwise product, `Points.multiply` / `Vectors.multiply`. -/
def Points.multiply (a b : Point α) : Point α := ⟨a.x * b.x, a.y * b.y⟩

/-- The function `Points.distance(a, b) = Math.hypot(b.x - a.x, b.y - a.y)`. -/
def Points.distance (hypot : α → α → α) (a b : Point α) : α :=
  hypot (b.x - a.x) (b.y - a.y)

/-- The function `Points.clamp(pt, min, max)`: each axis clamped. -/
def Points.clamp (pt : Point α) (min max : α) : Point α :=
  ⟨Numbers.clamp pt.x min max, Numbers.clamp pt.y min max⟩

/-- The function `Points.wrap(pt)` with its default bounds `{0,0}` and `{1,1}`. -/
def Points.wrap [FloorRing α] (pt : Point α) : Point α :=
  ⟨Numbers.wrap pt.x 0 1, Numbers.wrap pt.y 0 1⟩

/-- The helper `findMinimum(comparer, ...points)` of `Points.bbox`: a left fold
of `comparer` that starts at the first point. -/
def Points.findMinimum (comparer : Point α → Point α → Point α)
    (p : Point α) (ps : List (Point α)) : Point α :=
  (p :: ps).foldl comparer p

/-- The function `Rects.maxFromCorners`. -/
def Rects.maxFromCorners (topLeft topRight bottomRight bottomLeft : Point α) : Rect α :=
  let w1 := topRight.x - topLeft.x
  let w2 := bottomRight.x - bottomLeft.x
  let h1 := |bottomLeft.y - topLeft.y|
  let h2 := |bottomRight.y - topRight.y|
  { x := min topLeft.x bottomLeft.x
    y := min topRight.y topLeft.y
    width := max w1 w2
    height := max h1 h2 }

/-- The function `Points.bbox(...points)` on at least one point (it throws on
none): the rectangle spanned by the extreme coordinates. -/
def Points.bbox (p : Point α) (ps : List (Point α)) : Rect α :=
  let leftMost := Points.findMinimum (fun a b => if a.x < b.x then a else b) p ps
  let rightMost := Points.findMinimum (fun a b => if a.x > b.x then a else b) p ps
  let topMost := Points.findMinimum (fun a b => if a.y < b.y then a else b) p ps
  let bottomMost := Points.findMinimum (fun a b => if a.y > b.y then a else b) p ps
  let topLeft : Point α := ⟨leftMost.x, topMost.y⟩
  let topRight : Point α := ⟨rightMost.x, topMost.y⟩
  let bottomRight : Point α := ⟨rightMost.x, bottomMost.y⟩
  let bottomLeft : Point α := ⟨leftMost.x, bottomMost.y⟩
  Rects.maxFromCorners topLeft topRight bottomRight bottomLeft

/-- The function `Rects.center(rect)`. -/
def Rects.center (r : Rect α) : Point α :=
  ⟨r.x + r.width / 2, r.y + r.height / 2⟩

/-- The function `Lines.fromPoints(a, b)`. -/
def Lines.fromPoints (a b : Point α) : Line α := ⟨a, b⟩

/-- The function `Vectors.fromLineCartesian(line) = line.b - line.a`. -/
def Vectors.fromLineCartesian (l : Line α) : Point α := Points.subtract l.b l.a

end Geometry

/-! ## Point tracker (ixfx `trackers.js`) -/

/-- One tracked pointer: its identifier, the oldest sample kept (`initial`) and
the newest one (`last`). -/
structure Tracked (α : Type) where
  pointerId : Nat
  first : Point α
  last : Point α
deriving DecidableEq, Repr

/-- The tracker `points({ sampleLimit })`: the tracked pointers, oldest first.
Eviction of old samples, which can move `first`, is left out; every statement
about `V2.use`, the only reader of `first`, holds for all trackers. -/
structure Tracker (α : Type) where
  store : List (Tracked α)
deriving DecidableEq, Repr

section TrackerOps

variable {α : Type} [LinearOrderedField α]

/-- The getter `vectorCartesian`: from the first sample to the last. -/
def Tracked.vectorCartesian (t : Tracked α) : Point α :=
  Vectors.fromLineCartesian (Lines.fromPoints t.first t.last)

/-- The method `tracker.seen(id, point)`: a known pointer gets a new last
sample, an unknown one is added as the youngest. -/
def Tracker.seen (tr : Tracker α) (pointerId : Nat) (p : Point α) : Tracker α :=
  if tr.store.any (fun t => t.pointerId == pointerId) then
    ⟨tr.store.map (fun t => if t.pointerId = pointerId then { t with last := p } else t)⟩
  else
    ⟨tr.store ++ [{ pointerId := pointerId, first := p, last := p }]⟩

/-- The method `tracker.delete(id)`. -/
def Tracker.delete (tr : Tracker α) (pointerId : Nat) : Tracker α :=
  ⟨tr.store.filter (fun t => t.pointerId != pointerId)⟩

/-- The getter `tracker.size`. -/
def Tracker.size (tr : Tracker α) : Nat := tr.store.length

/-- The method `tracker.valuesByAge()`: the last sample of each pointer. -/
def Tracker.valuesByAge (tr : Tracker α) : List (Point α) := tr.store.map (fun t => t.last)

/-- The method `tracker.trackedByAge()`. -/
def Tracker.trackedByAge (tr : Tracker α) : List (Tracked α) := tr.store

end TrackerOps

/-! ## `src/v3/util.js` -/

section Util

variable {α : Type} [LinearOrderedField α]

/-- The function `rectGrowth(initialSize, currentSize)`, in exact arithmetic:
the script evaluates the same expression in doubles, rounding after each
operation. -/
def Util.rectGrowth (hypot : α → α → α) (initialSize currentSize : Rect α) : α :=
  let initialPos : Point α := ⟨initialSize.x, initialSize.y⟩
  let initialCenter := Rects.center initialSize
  let initialDistance := Points.distance hypot initialCenter initialPos
  let currentPos : Point α := ⟨currentSize.x, currentSize.y⟩
  let currentCenter := Rects.center currentSize
  let currentDistance := Points.distance hypot currentCenter currentPos
  let difference := initialDistance - currentDistance
  difference

/-- The function `vectorFromMiddle(rect, point, startRect)`; `none` is the
`undefined` it returns when `rect` is undefined. -/
def Util.vectorFromMiddle (hypot : α → α → α) (rect : Option (Rect α)) (point : Point α)
    (startRect : Rect α) : Option (Point α) :=
  match rect with
  | some rect =>
    let middlePoint : Point α := ⟨rect.x + rect.width / 2, rect.y + rect.height / 2⟩
    let multiplier := Util.rectGrowth hypot startRect rect * (1 / 2)
    let line := Lines.fromPoints point middlePoint
    let vector := Vectors.fromLineCartesian line
    let multiplied := Points.multiply vector ⟨multiplier, multiplier⟩
    some multiplied
  | none => none

end Util

/-! ## `src/v3/script.js` -/

namespace V3

/-- The setting `minNumberOfFingerForGesture`. -/
def minNumberOfFingerForGesture : Nat := 1

/-- The record `State` of v3. -/
structure State (α : Type) where
  things : List (Thing α)
  rect : Option (Rect α)
  gestureSizeStart : Option (Rect α)
  gestureStartPosition : Option (Point α)
  offsetVector : Point α
  growthDirection : α
deriving DecidableEq, Repr

/-- The tracker held in `settings` together with the module-level `state`. -/
structure World (α : Type) where
  tracker : Tracker α
  state : State α
deriving DecidableEq, Repr

section Script

variable {α : Type} [LinearOrderedField α]

/-- The state the module starts from, once `setup` has stored the entities
made by `Things.setup`, with nothing tracked. -/
def start (things : List (Thing α)) : World α :=
  { tracker := ⟨[]⟩
    state :=
      { things := things
        rect := none
        gestureSizeStart := none
        gestureStartPosition := none
        offsetVector := ⟨0, 0⟩
        growthDirection := 1 } }

/-- The function `updateRect`. `Points.bbox` throws on no points, which leaves
the state as it was; with a threshold of one that case is never reached. -/
def updateRect (w : World α) : World α :=
  if w.tracker.size ≥ minNumberOfFingerForGesture then
    match w.tracker.valuesByAge with
    | p :: ps => { w with state := { w.state with rect := some (Points.bbox p ps) } }
    | [] => w
  else
    { w with state := { w.state with rect := none } }

/-- The function `updateGestureStartPosition`. -/
def updateGestureStartPosition (w : World α) : World α :=
  let points := w.tracker.valuesByAge
  match w.state.rect with
  | some rect =>
    if points.length ≥ minNumberOfFingerForGesture then
      { w with state := { w.state with gestureStartPosition := some ⟨rect.x, rect.y⟩ } }
    else
      { w with state := { w.state with gestureStartPosition := none } }
  | none => { w with state := { w.state with gestureStartPosition := none } }

/-- The function `updateThingsSelection`. -/
def updateThingsSelection (checkIntersection : Thing α → Option (Rect α) → Bool)
    (w : World α) : World α :=
  let updatedThings := w.state.things.map
    (fun t => { t with selected := checkIntersection t w.state.rect })
  { w with state := { w.state with things := updatedThings } }

/-- The call `saveState({ gestureSizeStart })`. -/
@[noinline]
def saveGestureSizeStart (gestureSizeStart : Option (Rect α)) (w : World α) : World α :=
  { w with state := { w.state with gestureSizeStart := gestureSizeStart } }

/-- The handler `onPointerDown`; `p` is `Util.relativePointerEvent(event)`. -/
def onPointerDown (checkIntersection : Thing α → Option (Rect α) → Bool)
    (pointerId : Nat) (p : Point α) (w : World α) : World α :=
  let w1 : World α := { w with tracker := w.tracker.seen pointerId p }
  let w2 := updateRect w1
  let w3 := saveGestureSizeStart w2.state.rect w2
  let w4 := updateGestureStartPosition w3
  updateThingsSelection checkIntersection w4

/-- The handler `onPointerMove`. -/
def onPointerMove (pointerId : Nat) (p : Point α) (w : World α) : World α :=
  let w1 : World α := { w with tracker := w.tracker.seen pointerId p }
  updateRect w1

/-- The handler `onPointerUp`. -/
def onPointerUp (checkIntersection : Thing α → Option (Rect α) → Bool)
    (pointerId : Nat) (w : World α) : World α :=
  let w1 : World α := { w with tracker := w.tracker.delete pointerId }
  let w2 := updateRect w1
  let w3 := saveGestureSizeStart none w2
  updateThingsSelection checkIntersection w3

/-- The body of the `things.map` callback in the gesturing branch of `use`:
the entity it returns and, when it calls `Things.use`, the entity it renders.
`Util.vectorFromMiddle` returns a vector here because `rect` is defined; on
`undefined` the script would throw. -/
def moveThing (hypot : α → α → α) (rect gestureSizeStart : Rect α) (t : Thing α) :
    Thing α × Option (Thing α) :=
  if t.selected then
    match Util.vectorFromMiddle hypot (some rect) ⟨t.x, t.y⟩ gestureSizeStart with
    | some vector =>
      let updatedPosition := Points.sum ⟨t.x, t.y⟩ ⟨vector.x, vector.y⟩
      let clamped : Point α :=
        ⟨Numbers.clamp updatedPosition.x 0 1, Numbers.clamp updatedPosition.y 0 1⟩
      let finalThing : Thing α := { t with x := clamped.x, y := clamped.y }
      (finalThing, some finalThing)
    | none => (t, none)
  else
    (t, none)

/-- The function `use`, one frame tick: the new world and the entities passed
to `Things.use`, in call order. -/
def use (hypot : α → α → α) (w : World α) : World α × List (Thing α) :=
  match w.state.rect, w.state.gestureStartPosition, w.state.gestureSizeStart with
  | some rect, some gestureStartPosition, some gestureSizeStart =>
    let gestureCurrentPosition : Point α := ⟨rect.x, rect.y⟩
    let line := Lines.fromPoints gestureStartPosition gestureCurrentPosition
    let offsetVector := Vectors.fromLineCartesian line
    let w1 : World α := { w with state := { w.state with offsetVector := offsetVector } }
    let moved := w1.state.things.map (moveThing hypot rect gestureSizeStart)
    let newThings := moved.map Prod.fst
    let w2 := updateGestureStartPosition w1
    ({ w2 with state := { w2.state with things := newThings } }, moved.filterMap Prod.snd)
  | _, _, _ =>
    let newThings := w.state.things.map (fun t => t)
    ({ w with state := { w.state with things := newThings } }, w.state.things)

/-- The events that drive the script. -/
inductive Event (α : Type) where
  | pointerDown (pointerId : Nat) (p : Point α)
  | pointerMove (pointerId : Nat) (p : Point α)
  | pointerUp (pointerId : Nat)
  | frame
deriving DecidableEq, Repr

/-- One handler run, or one frame tick. -/
def step (hypot : α → α → α) (checkIntersection : Thing α → Option (Rect α) → Bool)
    (w : World α) : Event α → World α
  | .pointerDown pointerId p => onPointerDown checkIntersection pointerId p w
  | .pointerMove pointerId p => onPointerMove pointerId p w
  | .pointerUp pointerId => onPointerUp checkIntersection pointerId w
  | .frame => (use hypot w).1

/-- A sequence of events, handled one after the other. -/
def run (hypot : α → α → α) (checkIntersection : Thing α → Option (Rect α) → Bool)
    (w : World α) (events : List (Event α)) : World α :=
  events.foldl (step hypot checkIntersection) w

/-- The gesturing test of `use`: `rect`, `gestureStartPosition` and
`gestureSizeStart` are all defined. -/
def gesturing (s : State α) : Bool :=
  s.rect.isSome && s.gestureStartPosition.isSome && s.gestureSizeStart.isSome

/-- The invariant as the data model words it: the anchor and the start size are
defined if and only if `rect` is defined and enough touches are active. -/
def anchorInvariant (w : World α) : Prop :=
  (w.state.gestureStartPosition.isSome = true ∧ w.state.gestureSizeStart.isSome = true) ↔
    (w.state.rect.isSome = true ∧ minNumberOfFingerForGesture ≤ w.tracker.size)

/-- What the handlers and the frame tick do maintain. -/
def gestureInvariant (w : World α) : Prop :=
  (w.state.rect.isSome = true ↔ minNumberOfFingerForGesture ≤ w.tracker.size) ∧
    (w.state.gestureSizeStart.isSome = true →
      w.state.gestureStartPosition.isSome = true ∧ w.state.rect.isSome = true)

end Script

end V3

/-! ## `src/v2/script.js` -/

namespace V2

/-- The setting `minNumberOfFingerForGesture`. -/
def minNumberOfFingerForGesture : Nat := 1

/-- The record `State` of v2. -/
structure State (α : Type) where
  things : List (Thing α)
  rect : Option (Rect α)
  gestureStartPosition : Option (Point α)
  offsetVector : Point α
deriving DecidableEq, Repr

/-- The tracker held in `settings` together with the module-level `state`. -/
structure World (α : Type) where
  tracker : Tracker α
  state : State α
deriving DecidableEq, Repr

section Script

variable {α : Type} [LinearOrderedField α]

/-- The state the module starts from, once `setup` has stored the entities
made by `Things.setup`, with nothing tracked. -/
def start (things : List (Thing α)) : World α :=
  { tracker := ⟨[]⟩
    state :=
      { things := things
        rect := none
        gestureStartPosition := none
        offsetVector := ⟨0, 0⟩ } }

/-- The function `updateRect`. `Points.bbox` throws on no points, which leaves
the state as it was; with a threshold of one that case is never reached. -/
def updateRect (w : World α) : World α :=
  if w.tracker.size ≥ minNumberOfFingerForGesture then
    match w.tracker.valuesByAge with
    | p :: ps => { w with state := { w.state with rect := some (Points.bbox p ps) } }
    | [] => w
  else
    { w with state := { w.state with rect := none } }

/-- The function `updateGestureStartPosition`. -/
def updateGestureStartPosition (w : World α) : World α :=
  let points := w.tracker.valuesByAge
  match w.state.rect with
  | some rect =>
    if points.length ≥ minNumberOfFingerForGesture then
      { w with state := { w.state with gestureStartPosition := some ⟨rect.x, rect.y⟩ } }
    else
      { w with state := { w.state with gestureStartPosition := none } }
  | none => { w with state := { w.state with gestureStartPosition := none } }

/-- The function `updateThingsSelection`. -/
def updateThingsSelection (checkIntersection : Thing α → Option (Rect α) → Bool)
    (w : World α) : World α :=
  let updatedThings := w.state.things.map
    (fun t => { t with selected := checkIntersection t w.state.rect })
  { w with state := { w.state with things := updatedThings } }

/-- The handler `onPointerDown`; `p` is `Util.relativePointerEvent(event)`. -/
def onPointerDown (checkIntersection : Thing α → Option (Rect α) → Bool)
    (pointerId : Nat) (p : Point α) (w : World α) : World α :=
  let w1 : World α := { w with tracker := w.tracker.seen pointerId p }
  let w2 := updateRect w1
  let w3 := updateGestureStartPosition w2
  updateThingsSelection checkIntersection w3

/-- The handler `onPointerMove`. -/
def onPointerMove (pointerId : Nat) (p : Point α) (w : World α) : World α :=
  let w1 : World α := { w with tracker := w.tracker.seen pointerId p }
  updateRect w1

/-- The handler `onPointerUp`. -/
def onPointerUp (checkIntersection : Thing α → Option (Rect α) → Bool)
    (pointerId : Nat) (w : World α) : World α :=
  let w1 : World α := { w with tracker := w.tracker.delete pointerId }
  let w2 := updateRect w1
  updateThingsSelection checkIntersection w2

/-- The body of the `state.things.map` callback in the idle branch of `use`:
the entity drifts by `offsetVector` and is wrapped; it is both returned and
rendered. -/
def driftThing [FloorRing α] (offsetVector : Point α) (t : Thing α) : Thing α :=
  let updatedPosition := Points.sum ⟨t.x, t.y⟩ offsetVector
  let clampedPos := Points.wrap updatedPosition
  let finalThing : Thing α := { t with x := clampedPos.x, y := clampedPos.y }
  finalThing

/-- The body of the `things.map` callback in the gesturing branch of `use`:
the entity it returns and, when it calls `Things.use`, the entity it renders. -/
def moveThing (offsetVector : Point α) (t : Thing α) : Thing α × Option (Thing α) :=
  if t.selected then
    let updatedPosition :=
      Points.sum ⟨t.x, t.y⟩ ⟨offsetVector.x * (7 / 10), offsetVector.y * (7 / 10)⟩
    let clampedPos := Points.clamp updatedPosition 0 1
    let finalThing : Thing α := { t with x := clampedPos.x, y := clampedPos.y }
    (finalThing, some finalThing)
  else
    (t, none)

/-- The function `use`, one frame tick: the new world and the entities passed
to `Things.use`, in call order. -/
def use [FloorRing α] (w : World α) : World α × List (Thing α) :=
  match w.state.rect, w.state.gestureStartPosition with
  | some _, some _ =>
    match w.tracker.trackedByAge with
    | oldest :: _ =>
      let offsetVector := oldest.vectorCartesian
      let newOffset := Points.subtract offsetVector
        ⟨offsetVector.x * (1 / 100), offsetVector.y * (1 / 100)⟩
      let w1 : World α := { w with state := { w.state with offsetVector := newOffset } }
      let moved := w1.state.things.map (moveThing offsetVector)
      let newThings := moved.map Prod.fst
      let w2 := updateGestureStartPosition w1
      ({ w2 with state := { w2.state with things := newThings } }, moved.filterMap Prod.snd)
    | [] => (w, [])
  | _, _ =>
    let newThings := w.state.things.map (driftThing w.state.offsetVector)
    ({ w with state :=
        { w.state with
          things := newThings
          offsetVector := ⟨w.state.offsetVector.x * (4 / 5), w.state.offsetVector.y * (4 / 5)⟩ } },
      newThings)

/-- The events that drive the script. -/
inductive Event (α : Type) where
  | pointerDown (pointerId : Nat) (p : Point α)
  | pointerMove (pointerId : Nat) (p : Point α)
  | pointerUp (pointerId : Nat)
  | frame
deriving DecidableEq, Repr

/-- One handler run, or one frame tick. -/
def step [FloorRing α] (checkIntersection : Thing α → Option (Rect α) → Bool)
    (w : World α) : Event α → World α
  | .pointerDown pointerId p => onPointerDown checkIntersection pointerId p w
  | .pointerMove pointerId p => onPointerMove pointerId p w
  | .pointerUp pointerId => onPointerUp checkIntersection pointerId w
  | .frame => (use w).1

/-- A sequence of events, handled one after the other. -/
def run [FloorRing α] (checkIntersection : Thing α → Option (Rect α) → Bool)
    (w : World α) (events : List (Event α)) : World α :=
  events.foldl (step checkIntersection) w

/-- The gesturing test of `use`: `rect` and `gestureStartPosition` are both
defined. -/
def gesturing (s : State α) : Bool :=
  s.rect.isSome && s.gestureStartPosition.isSome

end Script

end V2

/-! ## A concrete intersection test, for evaluating the scripts -/

section Sample

variable {α : Type} [LinearOrderedField α]

/-- A sample `Things.checkIntersection`: the entity's position lies in the
rectangle, edges included; no rectangle, no intersection. -/
def sampleIntersection (t : Thing α) : Option (Rect α) → Bool
  | some r => decide (r.x ≤ t.x ∧ t.x ≤ r.x + r.width ∧ r.y ≤ t.y ∧ t.y ≤ r.y + r.height)
  | none => false

/-- The ideal `Math.hypot` over the rationals is not rational-valued; this
stand-in (the sum of the absolute values) is used where a script is evaluated
at rational inputs and the value of `hypot` does not matter. -/
def sampleHypot (a b : α) : α := |a| + |b|

end Sample

/-- Three sample entities. -/
def sampleThings : List (Thing ℚ) :=
  [ { id := 0, x := 0, y := 0, selected := false, size := 1 / 10, el := 0 },
    { id := 1, x := 3 / 4, y := 1 / 4, selected := false, size := 1 / 10, el := 1 },
    { id := 2, x := 1, y := 1 / 2, selected := false, size := 1 / 10, el := 2 } ]

/-- A gesturing state of v3: two touches went down, at (0, 0) and (1/2, 1/2),
and the second moved to (1/4, 1/4). -/
def V3.sampleGesture : V3.World ℚ :=
  { tracker := ⟨[⟨1, ⟨0, 0⟩, ⟨0, 0⟩⟩, ⟨2, ⟨1 / 2, 1 / 2⟩, ⟨1 / 4, 1 / 4⟩⟩]⟩
    state :=
      { things :=
          [ { id := 0, x := 0, y := 0, selected := true, size := 1 / 10, el := 0 },
            { id := 1, x := 3 / 4, y := 1 / 4, selected := false, size := 1 / 10, el := 1 },
            { id := 2, x := 1, y := 1 / 2, selected := false, size := 1 / 10, el := 2 } ]
        rect := some ⟨0, 0, 1 / 4, 1 / 4⟩
        gestureSizeStart := some ⟨0, 0, 1 / 2, 1 / 2⟩
        gestureStartPosition := some ⟨0, 0⟩
        offsetVector := ⟨0, 0⟩
        growthDirection := 1 } }

/-- A gesturing state of v2: one touch went down at (0, 0) and moved to
(1/8, 1/8). -/
def V2.sampleGesture : V2.World ℚ :=
  { tracker := ⟨[⟨1, ⟨0, 0⟩, ⟨1 / 8, 1 / 8⟩⟩]⟩
    state :=
      { things :=
          [ { id := 0, x := 0, y := 0, selected := true, size := 1 / 10, el := 0 },
            { id := 1, x := 3 / 4, y := 1 / 4, selected := false, size := 1 / 10, el := 1 },
            { id := 2, x := 1, y := 1 / 2, selected := false, size := 1 / 10, el := 2 } ]
        rect := some ⟨1 / 8, 1 / 8, 0, 0⟩
        gestureStartPosition := some ⟨0, 0⟩
        offsetVector := ⟨0, 0⟩ } }

/-- A gesturing state of v3 with one dragged touch: it went down at (0, 0) and
moved to (1/2, 1/2). -/
def V3.sampleDrag : V3.World ℚ :=
  { tracker := ⟨[⟨1, ⟨0, 0⟩, ⟨1 / 2, 1 / 2⟩⟩]⟩
    state :=
      { things :=
          [ { id := 0, x := 0, y := 0, selected := true, size := 1 / 10, el := 0 },
            { id := 1, x := 3 / 4, y := 1 / 4, selected := false, size := 1 / 10, el := 1 },
            { id := 2, x := 1, y := 1 / 2, selected := false, size := 1 / 10, el := 2 } ]
        rect := some ⟨1 / 2, 1 / 2, 0, 0⟩
        gestureSizeStart := some ⟨0, 0, 0, 0⟩
        gestureStartPosition := some ⟨0, 0⟩
        offsetVector := ⟨0, 0⟩
        growthDirection := 1 } }

/-! ## A predicate on the gesturing callbacks -/

/-- A callback that moves selected entities into the unit square, renders
them, and passes the others through untouched and unrendered. -/
def MovesSelected {α : Type} [LinearOrderedField α] (f : Thing α → Thing α × Option (Thing α)) :
    Prop :=
  ∀ t : Thing α,
    (t.selected = true → ∃ x y : α, f t =
      ({ t with x := Numbers.clamp x 0 1, y := Numbers.clamp y 0 1 },
        some { t with x := Numbers.clamp x 0 1, y := Numbers.clamp y 0 1 })) ∧
    (t.selected = false → f t = (t, none))

/-! # Theorems -/

/-! ## Tracker facts -/

theorem Tracker.size_seen_pos {α : Type} (tr : Tracker α) (pointerId : Nat) (p : Point α) :
    1 ≤ (tr.seen pointerId p).size := by
  unfold Tracker.seen Tracker.size
  split
  next h =>
    simp only [List.length_map]
    obtain ⟨t, ht, -⟩ := List.any_eq_true.mp h
    exact List.length_pos_of_mem ht
  next => simp

theorem Tracker.length_valuesByAge {α : Type} (tr : Tracker α) :
    tr.valuesByAge.length = tr.size := by
  simp [Tracker.valuesByAge, Tracker.size]

namespace V3

/-! ## What each step of v3 does to the gesture fields -/

theorem updateRect_tracker {α : Type} [LinearOrderedField α] (w : World α) :
    (updateRect w).tracker = w.tracker := by
  unfold updateRect
  split
  · split <;> rfl
  · rfl

theorem updateRect_rect_isSome {α : Type} [LinearOrderedField α] (w : World α) :
    (updateRect w).state.rect.isSome = decide (1 ≤ w.tracker.size) := by
  unfold updateRect
  split
  next h =>
    have hlen := Tracker.length_valuesByAge w.tracker
    split
    next p ps hp => simpa [minNumberOfFingerForGesture] using h
    next hnil =>
      rw [hnil] at hlen
      simp [minNumberOfFingerForGesture] at h
      simp at hlen
      omega
  next h =>
    simp [minNumberOfFingerForGesture] at h
    simp [h]

theorem updateRect_gestureSizeStart {α : Type} [LinearOrderedField α] (w : World α) :
    (updateRect w).state.gestureSizeStart = w.state.gestureSizeStart := by
  unfold updateRect
  split
  · split <;> rfl
  · rfl

theorem updateRect_gestureStartPosition {α : Type} [LinearOrderedField α] (w : World α) :
    (updateRect w).state.gestureStartPosition = w.state.gestureStartPosition := by
  unfold updateRect
  split
  · split <;> rfl
  · rfl

theorem updateRect_things {α : Type} [LinearOrderedField α] (w : World α) :
    (updateRect w).state.things = w.state.things := by
  unfold updateRect
  split
  · split <;> rfl
  · rfl

theorem updateGestureStartPosition_tracker {α : Type} [LinearOrderedField α] (w : World α) :
    (updateGestureStartPosition w).tracker = w.tracker := by
  unfold updateGestureStartPosition
  split
  · dsimp only
    split <;> rfl
  · rfl

theorem updateGestureStartPosition_rect {α : Type} [LinearOrderedField α] (w : World α) :
    (updateGestureStartPosition w).state.rect = w.state.rect := by
  unfold updateGestureStartPosition
  split
  · dsimp only
    split <;> rfl
  · rfl

theorem updateGestureStartPosition_gestureSizeStart {α : Type} [LinearOrderedField α]
    (w : World α) :
    (updateGestureStartPosition w).state.gestureSizeStart = w.state.gestureSizeStart := by
  unfold updateGestureStartPosition
  split
  · dsimp only
    split <;> rfl
  · rfl

theorem updateGestureStartPosition_things {α : Type} [LinearOrderedField α] (w : World α) :
    (updateGestureStartPosition w).state.things = w.state.things := by
  unfold updateGestureStartPosition
  split
  · dsimp only
    split <;> rfl
  · rfl

/-- With a rectangle and at least one tracked touch, `updateGestureStartPosition`
stores the rectangle's origin. -/
theorem updateGestureStartPosition_of_rect {α : Type} [LinearOrderedField α] (w : World α)
    (r : Rect α) (hr : w.state.rect = some r) (hn : 1 ≤ w.tracker.size) :
    (updateGestureStartPosition w).state.gestureStartPosition = some ⟨r.x, r.y⟩ := by
  unfold updateGestureStartPosition
  simp only [hr, Tracker.length_valuesByAge, minNumberOfFingerForGesture, ge_iff_le, hn, if_true]

/-- Without a rectangle `updateGestureStartPosition` clears the anchor. -/
theorem updateGestureStartPosition_of_no_rect {α : Type} [LinearOrderedField α] (w : World α)
    (hr : w.state.rect = none) :
    (updateGestureStartPosition w).state.gestureStartPosition = none := by
  unfold updateGestureStartPosition
  simp only [hr]


theorem use_of_gesturing {α : Type} [LinearOrderedField α] (hypot : α → α → α) (w : World α)
    (r : Rect α) (g : Point α) (s : Rect α) (hr : w.state.rect = some r)
    (hg : w.state.gestureStartPosition = some g) (hs : w.state.gestureSizeStart = some s) :
    use hypot w =
      ({ updateGestureStartPosition
            { w with state := { w.state with
                offsetVector := Vectors.fromLineCartesian (Lines.fromPoints g ⟨r.x, r.y⟩) } } with
          state := { (updateGestureStartPosition
            { w with state := { w.state with
                offsetVector := Vectors.fromLineCartesian (Lines.fromPoints g ⟨r.x, r.y⟩) } }).state with
            things := (w.state.things.map (moveThing hypot r s)).map Prod.fst } },
        (w.state.things.map (moveThing hypot r s)).filterMap Prod.snd) := by
  unfold use
  simp only [hr, hg, hs]

theorem use_of_idle {α : Type} [LinearOrderedField α] (hypot : α → α → α) (w : World α)
    (h : gesturing w.state = false) : use hypot w = (w, w.state.things) := by
  unfold use
  split
  next r g s hr hg hs => simp [gesturing, hr, hg, hs] at h
  next => simp


theorem gestureInvariant_start {α : Type} [LinearOrderedField α] (things : List (Thing α)) :
    gestureInvariant (start things) := by
  simp [gestureInvariant, start, minNumberOfFingerForGesture, Tracker.size]

theorem gestureInvariant_step {α : Type} [LinearOrderedField α] (hypot : α → α → α)
    (checkIntersection : Thing α → Option (Rect α) → Bool) (w : World α) (e : Event α)
    (h : gestureInvariant w) : gestureInvariant (step hypot checkIntersection w e) := by
  obtain ⟨h1, h2⟩ := h
  cases e with
  | pointerDown pointerId p =>
    have hpos := Tracker.size_seen_pos w.tracker pointerId p
    have hrect : (updateRect { w with tracker := w.tracker.seen pointerId p }).state.rect.isSome
        = true := by
      rw [updateRect_rect_isSome]; simpa using hpos
    obtain ⟨r, hr⟩ := Option.isSome_iff_exists.mp hrect
    have hgsp := updateGestureStartPosition_of_rect
      (saveGestureSizeStart (updateRect { w with tracker := w.tracker.seen pointerId p }).state.rect
        (updateRect { w with tracker := w.tracker.seen pointerId p })) r
      (by simpa [saveGestureSizeStart] using hr)
      (by simpa [saveGestureSizeStart, updateRect_tracker] using hpos)
    simp only [step, onPointerDown, gestureInvariant, updateThingsSelection,
      updateGestureStartPosition_tracker, updateGestureStartPosition_rect,
      updateGestureStartPosition_gestureSizeStart, hgsp]
    simp only [saveGestureSizeStart, updateRect_tracker, hrect, minNumberOfFingerForGesture]
    simpa using hpos
  | pointerMove pointerId p =>
    have hpos := Tracker.size_seen_pos w.tracker pointerId p
    have hrect : (updateRect { w with tracker := w.tracker.seen pointerId p }).state.rect.isSome
        = true := by
      rw [updateRect_rect_isSome]; simpa using hpos
    simp only [step, onPointerMove, gestureInvariant, updateRect_tracker, hrect,
      updateRect_gestureSizeStart, updateRect_gestureStartPosition, minNumberOfFingerForGesture]
    refine ⟨by simpa using hpos, fun hs => ⟨(h2 hs).1, trivial⟩⟩
  | pointerUp pointerId =>
    simp only [step, onPointerUp, gestureInvariant, updateThingsSelection, saveGestureSizeStart,
      updateRect_tracker, updateRect_rect_isSome, minNumberOfFingerForGesture]
    simp
  | frame =>
    cases hg : gesturing w.state with
    | false =>
      simp only [step, use_of_idle hypot w hg]
      exact ⟨h1, h2⟩
    | true =>
      simp only [gesturing, Bool.and_eq_true] at hg
      obtain ⟨⟨hr, hg⟩, hs⟩ := hg
      obtain ⟨r, hr'⟩ := Option.isSome_iff_exists.mp hr
      obtain ⟨g, hg'⟩ := Option.isSome_iff_exists.mp hg
      obtain ⟨s, hs'⟩ := Option.isSome_iff_exists.mp hs
      have hn : 1 ≤ w.tracker.size := by simpa [minNumberOfFingerForGesture] using h1.mp hr
      have hgsp := updateGestureStartPosition_of_rect
        { w with state := { w.state with
            offsetVector := Vectors.fromLineCartesian (Lines.fromPoints g ⟨r.x, r.y⟩) } } r hr' hn
      simp only [step, use_of_gesturing hypot w r g s hr' hg' hs', gestureInvariant,
        updateGestureStartPosition_tracker, updateGestureStartPosition_rect,
        updateGestureStartPosition_gestureSizeStart, hgsp, hr, hs]
      simpa [minNumberOfFingerForGesture] using hn

theorem gestureInvariant_run {α : Type} [LinearOrderedField α] (hypot : α → α → α)
    (checkIntersection : Thing α → Option (Rect α) → Bool) (events : List (Event α))
    (w : World α) (h : gestureInvariant w) :
    gestureInvariant (run hypot checkIntersection w events) := by
  induction events generalizing w with
  | nil => exact h
  | cons e es ih => exact ih _ (gestureInvariant_step hypot checkIntersection w e h)


/-- C1: from the start state with nothing tracked, after `onPointerDown` has
taken in a touch at `p` the tracker holds exactly that point and the state is
gesturing: `rect` is the zero-area rectangle at `p`, `gestureStartPosition` is
`p` and `gestureSizeStart` is `rect`. -/
theorem onPointerDown_from_rest {α : Type} [LinearOrderedField α]
    (checkIntersection : Thing α → Option (Rect α) → Bool) (things : List (Thing α))
    (pointerId : Nat) (p : Point α) :
    (onPointerDown checkIntersection pointerId p (start things)).tracker.valuesByAge = [p] ∧
    (onPointerDown checkIntersection pointerId p (start things)).state.rect
      = some ⟨p.x, p.y, 0, 0⟩ ∧
    (onPointerDown checkIntersection pointerId p (start things)).state.gestureStartPosition
      = some p ∧
    (onPointerDown checkIntersection pointerId p (start things)).state.gestureSizeStart
      = (onPointerDown checkIntersection pointerId p (start things)).state.rect ∧
    gesturing (onPointerDown checkIntersection pointerId p (start things)).state = true := by
  simp [onPointerDown, start, Tracker.seen, updateRect, Tracker.size, Tracker.valuesByAge,
    minNumberOfFingerForGesture, updateGestureStartPosition, updateThingsSelection,
    Points.bbox, Points.findMinimum, Rects.maxFromCorners, saveGestureSizeStart, gesturing]

/-- C3, as worded, fails: after two touches go down and one is lifted, `rect`
is defined and one touch is active, yet `gestureSizeStart` is undefined. Both
readings of the sentence (the two fields together, or `gestureSizeStart` on its
own) are false in that reachable state. -/
theorem anchorInvariant_fails :
    ¬ anchorInvariant (run sampleHypot sampleIntersection (start ([] : List (Thing ℚ)))
        [.pointerDown 1 ⟨0, 0⟩, .pointerDown 2 ⟨1 / 2, 1 / 2⟩, .pointerUp 2]) ∧
    ¬ ((run sampleHypot sampleIntersection (start ([] : List (Thing ℚ)))
        [.pointerDown 1 ⟨0, 0⟩, .pointerDown 2 ⟨1 / 2, 1 / 2⟩, .pointerUp 2]
        ).state.gestureSizeStart.isSome = true ↔
      ((run sampleHypot sampleIntersection (start ([] : List (Thing ℚ)))
        [.pointerDown 1 ⟨0, 0⟩, .pointerDown 2 ⟨1 / 2, 1 / 2⟩, .pointerUp 2]
        ).state.rect.isSome = true ∧
       minNumberOfFingerForGesture ≤ (run sampleHypot sampleIntersection
        (start ([] : List (Thing ℚ)))
        [.pointerDown 1 ⟨0, 0⟩, .pointerDown 2 ⟨1 / 2, 1 / 2⟩, .pointerUp 2]).tracker.size)) := by
  simp [anchorInvariant, run, step, onPointerDown, onPointerUp, start, Tracker.seen,
    Tracker.delete, updateRect, Tracker.size, Tracker.valuesByAge, minNumberOfFingerForGesture,
    updateGestureStartPosition, updateThingsSelection, saveGestureSizeStart]

/-- C3, amended: in every state reachable from the start state by pointer-down,
pointer-move, pointer-up and frame ticks, `rect` is defined exactly when enough
touches are active, and a defined `gestureSizeStart` comes with a defined
`gestureStartPosition` and a defined `rect`; so when both anchor fields are
defined, `rect` is defined and enough touches are active. -/
theorem reachable_gestureInvariant {α : Type} [LinearOrderedField α] (hypot : α → α → α)
    (checkIntersection : Thing α → Option (Rect α) → Bool) (things : List (Thing α))
    (events : List (Event α)) :
    ((run hypot checkIntersection (start things) events).state.rect.isSome = true ↔
      minNumberOfFingerForGesture ≤
        (run hypot checkIntersection (start things) events).tracker.size) ∧
    ((run hypot checkIntersection (start things) events).state.gestureSizeStart.isSome = true →
      (run hypot checkIntersection (start things) events).state.gestureStartPosition.isSome = true
      ∧ (run hypot checkIntersection (start things) events).state.rect.isSome = true) ∧
    ((run hypot checkIntersection (start things) events).state.gestureStartPosition.isSome = true
      ∧ (run hypot checkIntersection (start things) events).state.gestureSizeStart.isSome = true →
      (run hypot checkIntersection (start things) events).state.rect.isSome = true ∧
      minNumberOfFingerForGesture ≤
        (run hypot checkIntersection (start things) events).tracker.size) := by
  have h := gestureInvariant_run hypot checkIntersection events (start things)
    (gestureInvariant_start things)
  exact ⟨h.1, h.2, fun hb => ⟨(h.2 hb.2).2, h.1.mp (h.2 hb.2).2⟩⟩

end V3

namespace V2

/-! ## What each step of v2 does to the gesture fields -/

theorem updateRect_tracker_v2 {α : Type} [LinearOrderedField α] (w : World α) :
    (updateRect w).tracker = w.tracker := by
  unfold updateRect
  split
  · split <;> rfl
  · rfl

theorem updateRect_gestureStartPosition_v2 {α : Type} [LinearOrderedField α] (w : World α) :
    (updateRect w).state.gestureStartPosition = w.state.gestureStartPosition := by
  unfold updateRect
  split
  · split <;> rfl
  · rfl

theorem updateGestureStartPosition_of_rect_v2 {α : Type} [LinearOrderedField α] (w : World α)
    (r : Rect α) (hr : w.state.rect = some r) (hn : 1 ≤ w.tracker.size) :
    (updateGestureStartPosition w).state.gestureStartPosition = some ⟨r.x, r.y⟩ := by
  unfold updateGestureStartPosition
  simp only [hr, Tracker.length_valuesByAge, minNumberOfFingerForGesture, ge_iff_le, hn, if_true]

theorem updateGestureStartPosition_rect_v2 {α : Type} [LinearOrderedField α] (w : World α) :
    (updateGestureStartPosition w).state.rect = w.state.rect := by
  unfold updateGestureStartPosition
  split
  · dsimp only
    split <;> rfl
  · rfl

theorem updateGestureStartPosition_tracker_v2 {α : Type} [LinearOrderedField α] (w : World α) :
    (updateGestureStartPosition w).tracker = w.tracker := by
  unfold updateGestureStartPosition
  split
  · dsimp only
    split <;> rfl
  · rfl

theorem use_of_gesturing_v2 {α : Type} [LinearOrderedField α] [FloorRing α] (w : World α)
    (r : Rect α) (g : Point α) (oldest : Tracked α) (others : List (Tracked α))
    (hr : w.state.rect = some r) (hg : w.state.gestureStartPosition = some g)
    (ht : w.tracker.trackedByAge = oldest :: others) :
    use w =
      ({ updateGestureStartPosition
            { w with state := { w.state with
                offsetVector := Points.subtract oldest.vectorCartesian
                  ⟨oldest.vectorCartesian.x * (1 / 100), oldest.vectorCartesian.y * (1 / 100)⟩ } }
          with state := { (updateGestureStartPosition
            { w with state := { w.state with
                offsetVector := Points.subtract oldest.vectorCartesian
                  ⟨oldest.vectorCartesian.x * (1 / 100),
                    oldest.vectorCartesian.y * (1 / 100)⟩ } }).state with
            things := (w.state.things.map (moveThing oldest.vectorCartesian)).map Prod.fst } },
        (w.state.things.map (moveThing oldest.vectorCartesian)).filterMap Prod.snd) := by
  unfold use
  simp only [hr, hg, ht]

theorem use_of_gesturing_untracked {α : Type} [LinearOrderedField α] [FloorRing α] (w : World α)
    (h : gesturing w.state = true) (ht : w.tracker.trackedByAge = []) : use w = (w, []) := by
  simp only [gesturing, Bool.and_eq_true] at h
  obtain ⟨r, hr⟩ := Option.isSome_iff_exists.mp h.1
  obtain ⟨g, hg⟩ := Option.isSome_iff_exists.mp h.2
  unfold use
  simp only [hr, hg, ht]

theorem use_of_idle_v2 {α : Type} [LinearOrderedField α] [FloorRing α] (w : World α)
    (h : gesturing w.state = false) :
    use w =
      ({ w with state := { w.state with
            things := w.state.things.map (driftThing w.state.offsetVector)
            offsetVector :=
              ⟨w.state.offsetVector.x * (4 / 5), w.state.offsetVector.y * (4 / 5)⟩ } },
        w.state.things.map (driftThing w.state.offsetVector)) := by
  unfold use
  split
  next r g hr hg => simp [gesturing, hr, hg] at h
  next => rfl

end V2

/-- C2, evaluated: a touch goes down at (1/2, 1/2) and is lifted again. After
`onPointerUp` nothing is tracked, `rect` is undefined and (v3)
`gestureSizeStart` is undefined, but `gestureStartPosition` still holds
(1/2, 1/2), in v3 and in v2. -/
theorem onPointerUp_last_touch_keeps_anchor :
    (V3.onPointerDown sampleIntersection 1 (⟨1 / 2, 1 / 2⟩ : Point ℚ) (V3.start [])).tracker.size
      = 1 ∧
    V3.gesturing (V3.onPointerDown sampleIntersection 1 (⟨1 / 2, 1 / 2⟩ : Point ℚ)
      (V3.start [])).state = true ∧
    (V3.onPointerUp sampleIntersection 1 (V3.onPointerDown sampleIntersection 1
      (⟨1 / 2, 1 / 2⟩ : Point ℚ) (V3.start []))).tracker.size = 0 ∧
    (V3.onPointerUp sampleIntersection 1 (V3.onPointerDown sampleIntersection 1
      (⟨1 / 2, 1 / 2⟩ : Point ℚ) (V3.start []))).state.rect = none ∧
    (V3.onPointerUp sampleIntersection 1 (V3.onPointerDown sampleIntersection 1
      (⟨1 / 2, 1 / 2⟩ : Point ℚ) (V3.start []))).state.gestureSizeStart = none ∧
    (V3.onPointerUp sampleIntersection 1 (V3.onPointerDown sampleIntersection 1
      (⟨1 / 2, 1 / 2⟩ : Point ℚ) (V3.start []))).state.gestureStartPosition
      = some ⟨1 / 2, 1 / 2⟩ ∧
    (V2.onPointerDown sampleIntersection 1 (⟨1 / 2, 1 / 2⟩ : Point ℚ) (V2.start [])).tracker.size
      = 1 ∧
    V2.gesturing (V2.onPointerDown sampleIntersection 1 (⟨1 / 2, 1 / 2⟩ : Point ℚ)
      (V2.start [])).state = true ∧
    (V2.onPointerUp sampleIntersection 1 (V2.onPointerDown sampleIntersection 1
      (⟨1 / 2, 1 / 2⟩ : Point ℚ) (V2.start []))).state.rect = none ∧
    (V2.onPointerUp sampleIntersection 1 (V2.onPointerDown sampleIntersection 1
      (⟨1 / 2, 1 / 2⟩ : Point ℚ) (V2.start []))).state.gestureStartPosition
      = some ⟨1 / 2, 1 / 2⟩ := by
  simp [V3.onPointerDown, V3.onPointerUp, V3.start, V3.updateRect, V3.gesturing,
    V3.minNumberOfFingerForGesture, V3.updateGestureStartPosition, V3.updateThingsSelection,
    V3.saveGestureSizeStart, V2.onPointerDown, V2.onPointerUp, V2.start, V2.updateRect,
    V2.gesturing, V2.minNumberOfFingerForGesture, V2.updateGestureStartPosition,
    V2.updateThingsSelection, Tracker.seen, Tracker.delete, Tracker.size, Tracker.valuesByAge,
    Points.bbox, Points.findMinimum, Rects.maxFromCorners]

theorem V3.run_moves_gestureStartPosition {α : Type} [LinearOrderedField α] (hypot : α → α → α)
    (checkIntersection : Thing α → Option (Rect α) → Bool) (moves : List (Nat × Point α))
    (w : V3.World α) :
    (V3.run hypot checkIntersection w
        (moves.map (fun m => V3.Event.pointerMove m.1 m.2))).state.gestureStartPosition
      = w.state.gestureStartPosition := by
  induction moves generalizing w with
  | nil => rfl
  | cons m ms ih =>
    simp only [V3.run, List.map_cons, List.foldl_cons] at ih ⊢
    rw [ih]
    simp only [V3.step, V3.onPointerMove, V3.updateRect_gestureStartPosition]

theorem V2.run_moves_gestureStartPosition_v2 {α : Type} [LinearOrderedField α] [FloorRing α]
    (checkIntersection : Thing α → Option (Rect α) → Bool) (moves : List (Nat × Point α))
    (w : V2.World α) :
    (V2.run checkIntersection w
        (moves.map (fun m => V2.Event.pointerMove m.1 m.2))).state.gestureStartPosition
      = w.state.gestureStartPosition := by
  induction moves generalizing w with
  | nil => rfl
  | cons m ms ih =>
    simp only [V2.run, List.map_cons, List.foldl_cons] at ih ⊢
    rw [ih]
    simp only [V2.step, V2.onPointerMove, V2.updateRect_gestureStartPosition_v2]

/-- C4, as worded, fails: a touch goes down at (0, 0), which captures the
anchor (0, 0); it moves to (1/2, 1/2) and one frame tick follows. The anchor is
then (1/2, 1/2), no longer the origin captured at touch-down, in v3 and in v2. -/
theorem anchor_moves_on_frame :
    (V3.onPointerDown sampleIntersection 1 (⟨0, 0⟩ : Point ℚ)
      (V3.start [])).state.gestureStartPosition = some ⟨0, 0⟩ ∧
    (V3.run sampleHypot sampleIntersection
      (V3.onPointerDown sampleIntersection 1 (⟨0, 0⟩ : Point ℚ) (V3.start []))
      [.pointerMove 1 ⟨1 / 2, 1 / 2⟩, .frame]).state.gestureStartPosition
      = some ⟨1 / 2, 1 / 2⟩ ∧
    (V3.run sampleHypot sampleIntersection
      (V3.onPointerDown sampleIntersection 1 (⟨0, 0⟩ : Point ℚ) (V3.start []))
      [.pointerMove 1 ⟨1 / 2, 1 / 2⟩, .frame]).state.gestureStartPosition
      ≠ (V3.onPointerDown sampleIntersection 1 (⟨0, 0⟩ : Point ℚ)
          (V3.start [])).state.gestureStartPosition ∧
    (V2.onPointerDown sampleIntersection 1 (⟨0, 0⟩ : Point ℚ)
      (V2.start [])).state.gestureStartPosition = some ⟨0, 0⟩ ∧
    (V2.run sampleIntersection
      (V2.onPointerDown sampleIntersection 1 (⟨0, 0⟩ : Point ℚ) (V2.start []))
      [.pointerMove 1 ⟨1 / 2, 1 / 2⟩, .frame]).state.gestureStartPosition
      ≠ (V2.onPointerDown sampleIntersection 1 (⟨0, 0⟩ : Point ℚ)
          (V2.start [])).state.gestureStartPosition := by
  simp [V3.run, V3.step, V3.use, V3.onPointerDown, V3.onPointerMove, V3.start, V3.updateRect,
    V3.minNumberOfFingerForGesture, V3.updateGestureStartPosition, V3.updateThingsSelection,
    V3.saveGestureSizeStart, V2.run, V2.step, V2.use, V2.onPointerDown, V2.onPointerMove,
    V2.start, V2.updateRect, V2.minNumberOfFingerForGesture, V2.updateGestureStartPosition,
    V2.updateThingsSelection, Tracker.seen, Tracker.size, Tracker.valuesByAge,
    Tracker.trackedByAge, Points.bbox, Points.findMinimum, Rects.maxFromCorners]

/-- C4, amended: pointer-move handlers alone, however many, leave
`gestureStartPosition` as it was, also when the rectangle moves; a frame tick
in a gesturing state with a tracked touch keeps `rect` and sets
`gestureStartPosition` to the origin of the current `rect`. -/
theorem anchor_kept_by_moves_reset_by_frame {α : Type} [LinearOrderedField α] [FloorRing α]
    (hypot : α → α → α) (checkIntersection : Thing α → Option (Rect α) → Bool)
    (moves : List (Nat × Point α)) (w3 : V3.World α) (w2 : V2.World α) (r3 r2 : Rect α)
    (hr3 : w3.state.rect = some r3) (hg3 : V3.gesturing w3.state = true)
    (hn3 : 1 ≤ w3.tracker.size)
    (hr2 : w2.state.rect = some r2) (hg2 : V2.gesturing w2.state = true)
    (hn2 : 1 ≤ w2.tracker.size) :
    (V3.run hypot checkIntersection w3
        (moves.map (fun m => V3.Event.pointerMove m.1 m.2))).state.gestureStartPosition
      = w3.state.gestureStartPosition ∧
    (V3.use hypot w3).1.state.rect = some r3 ∧
    (V3.use hypot w3).1.state.gestureStartPosition = some ⟨r3.x, r3.y⟩ ∧
    (V2.run checkIntersection w2
        (moves.map (fun m => V2.Event.pointerMove m.1 m.2))).state.gestureStartPosition
      = w2.state.gestureStartPosition ∧
    (V2.use w2).1.state.rect = some r2 ∧
    (V2.use w2).1.state.gestureStartPosition = some ⟨r2.x, r2.y⟩ := by
  refine ⟨V3.run_moves_gestureStartPosition hypot checkIntersection moves w3, ?_, ?_,
    V2.run_moves_gestureStartPosition_v2 checkIntersection moves w2, ?_, ?_⟩
  · simp only [V3.gesturing, Bool.and_eq_true] at hg3
    obtain ⟨g, hg⟩ := Option.isSome_iff_exists.mp hg3.1.2
    obtain ⟨s, hs⟩ := Option.isSome_iff_exists.mp hg3.2
    rw [V3.use_of_gesturing hypot w3 r3 g s hr3 hg hs]
    simp only [V3.updateGestureStartPosition_rect, hr3]
  · simp only [V3.gesturing, Bool.and_eq_true] at hg3
    obtain ⟨g, hg⟩ := Option.isSome_iff_exists.mp hg3.1.2
    obtain ⟨s, hs⟩ := Option.isSome_iff_exists.mp hg3.2
    rw [V3.use_of_gesturing hypot w3 r3 g s hr3 hg hs]
    exact V3.updateGestureStartPosition_of_rect _ r3 hr3 hn3
  · simp only [V2.gesturing, Bool.and_eq_true] at hg2
    obtain ⟨g, hg⟩ := Option.isSome_iff_exists.mp hg2.2
    cases ht : w2.tracker.trackedByAge with
    | nil => simp [Tracker.size, Tracker.trackedByAge] at hn2 ht; simp [ht] at hn2
    | cons oldest others =>
      rw [V2.use_of_gesturing_v2 w2 r2 g oldest others hr2 hg ht]
      simp only [V2.updateGestureStartPosition_rect_v2, hr2]
  · simp only [V2.gesturing, Bool.and_eq_true] at hg2
    obtain ⟨g, hg⟩ := Option.isSome_iff_exists.mp hg2.2
    cases ht : w2.tracker.trackedByAge with
    | nil => simp [Tracker.size, Tracker.trackedByAge] at hn2 ht; simp [ht] at hn2
    | cons oldest others =>
      rw [V2.use_of_gesturing_v2 w2 r2 g oldest others hr2 hg ht]
      exact V2.updateGestureStartPosition_of_rect_v2 _ r2 hr2 hn2

/-! ## The sample states are reachable -/

theorem V3.sampleGesture_reached :
    V3.run sampleHypot sampleIntersection (V3.start sampleThings)
      [.pointerDown 1 ⟨0, 0⟩, .pointerDown 2 ⟨1 / 2, 1 / 2⟩, .pointerMove 2 ⟨1 / 4, 1 / 4⟩]
      = V3.sampleGesture := by
  simp [V3.sampleGesture, sampleThings, V3.run, V3.step, V3.onPointerDown, V3.onPointerMove,
    V3.start, V3.updateRect, V3.minNumberOfFingerForGesture, V3.updateGestureStartPosition,
    V3.updateThingsSelection, V3.saveGestureSizeStart, Tracker.seen, Tracker.size,
    Tracker.valuesByAge, Points.bbox, Points.findMinimum, Rects.maxFromCorners,
    sampleIntersection]
  norm_num [abs_of_pos]

theorem V2.sampleGesture_reached_v2 :
    V2.run sampleIntersection (V2.start sampleThings)
      [.pointerDown 1 ⟨0, 0⟩, .pointerMove 1 ⟨1 / 8, 1 / 8⟩] = V2.sampleGesture := by
  simp [V2.sampleGesture, sampleThings, V2.run, V2.step, V2.onPointerDown, V2.onPointerMove,
    V2.start, V2.updateRect, V2.minNumberOfFingerForGesture, V2.updateGestureStartPosition,
    V2.updateThingsSelection, Tracker.seen, Tracker.size,
    Tracker.valuesByAge, Points.bbox, Points.findMinimum, Rects.maxFromCorners,
    sampleIntersection]

/-- Witness for C4 (amended), at the sample gesturing states. -/
theorem anchor_kept_by_moves_reset_by_frame_witness :
    (V3.sampleGesture.state.rect = some ⟨0, 0, 1 / 4, 1 / 4⟩ ∧
      V3.gesturing V3.sampleGesture.state = true ∧ 1 ≤ V3.sampleGesture.tracker.size ∧
      V2.sampleGesture.state.rect = some ⟨1 / 8, 1 / 8, 0, 0⟩ ∧
      V2.gesturing V2.sampleGesture.state = true ∧ 1 ≤ V2.sampleGesture.tracker.size) ∧
    ((V3.run sampleHypot sampleIntersection V3.sampleGesture
        ([(2, (⟨1 / 3, 1 / 3⟩ : Point ℚ))].map
          (fun m => V3.Event.pointerMove m.1 m.2))).state.gestureStartPosition
      = V3.sampleGesture.state.gestureStartPosition ∧
    (V3.use sampleHypot V3.sampleGesture).1.state.rect = some ⟨0, 0, 1 / 4, 1 / 4⟩ ∧
    (V3.use sampleHypot V3.sampleGesture).1.state.gestureStartPosition = some ⟨0, 0⟩ ∧
    (V2.run sampleIntersection V2.sampleGesture
        ([(2, (⟨1 / 3, 1 / 3⟩ : Point ℚ))].map
          (fun m => V2.Event.pointerMove m.1 m.2))).state.gestureStartPosition
      = V2.sampleGesture.state.gestureStartPosition ∧
    (V2.use V2.sampleGesture).1.state.rect = some ⟨1 / 8, 1 / 8, 0, 0⟩ ∧
    (V2.use V2.sampleGesture).1.state.gestureStartPosition = some ⟨1 / 8, 1 / 8⟩) :=
  ⟨⟨rfl, rfl, by decide, rfl, rfl, by decide⟩,
    anchor_kept_by_moves_reset_by_frame sampleHypot sampleIntersection [(2, ⟨1 / 3, 1 / 3⟩)]
      V3.sampleGesture V2.sampleGesture ⟨0, 0, 1 / 4, 1 / 4⟩ ⟨1 / 8, 1 / 8, 0, 0⟩
      rfl rfl (by decide) rfl rfl (by decide)⟩

/-! ## Clamping -/

theorem Numbers.clamp_mem_unit {α : Type} [LinearOrderedField α] (v : α) :
    0 ≤ Numbers.clamp v 0 1 ∧ Numbers.clamp v 0 1 ≤ 1 := by
  unfold Numbers.clamp
  split
  · exact ⟨le_refl 0, zero_le_one⟩
  · split
    · exact ⟨zero_le_one, le_refl 1⟩
    · constructor
      · exact not_lt.mp ‹_›
      · exact not_lt.mp ‹_›

/-! ## The per-entity callbacks of the gesturing branch -/

theorem V3.moveThing_of_selected {α : Type} [LinearOrderedField α] (hypot : α → α → α)
    (r s : Rect α) (t : Thing α) (h : t.selected = true) :
    ∃ x y : α, V3.moveThing hypot r s t =
      ({ t with x := Numbers.clamp x 0 1, y := Numbers.clamp y 0 1 },
        some { t with x := Numbers.clamp x 0 1, y := Numbers.clamp y 0 1 }) := by
  simp only [V3.moveThing, h, if_true, Util.vectorFromMiddle]
  exact ⟨_, _, rfl⟩

theorem V3.moveThing_of_not_selected {α : Type} [LinearOrderedField α] (hypot : α → α → α)
    (r s : Rect α) (t : Thing α) (h : t.selected = false) :
    V3.moveThing hypot r s t = (t, none) := by
  simp [V3.moveThing, h]

theorem V2.moveThing_of_selected_v2 {α : Type} [LinearOrderedField α] (v : Point α)
    (t : Thing α) (h : t.selected = true) :
    ∃ x y : α, V2.moveThing v t =
      ({ t with x := Numbers.clamp x 0 1, y := Numbers.clamp y 0 1 },
        some { t with x := Numbers.clamp x 0 1, y := Numbers.clamp y 0 1 }) := by
  simp only [V2.moveThing, h, if_true, Points.clamp]
  exact ⟨_, _, rfl⟩

theorem V2.moveThing_of_not_selected_v2 {α : Type} [LinearOrderedField α] (v : Point α)
    (t : Thing α) (h : t.selected = false) : V2.moveThing v t = (t, none) := by
  simp [V2.moveThing, h]

theorem V3.movesSelected_moveThing {α : Type} [LinearOrderedField α] (hypot : α → α → α)
    (r s : Rect α) : MovesSelected (V3.moveThing hypot r s) :=
  fun t => ⟨V3.moveThing_of_selected hypot r s t, V3.moveThing_of_not_selected hypot r s t⟩

theorem V2.movesSelected_moveThing_v2 {α : Type} [LinearOrderedField α] (v : Point α) :
    MovesSelected (V2.moveThing v) :=
  fun t => ⟨V2.moveThing_of_selected_v2 v t, V2.moveThing_of_not_selected_v2 v t⟩

theorem MovesSelected.fst_selected {α : Type} [LinearOrderedField α]
    {f : Thing α → Thing α × Option (Thing α)} (hf : MovesSelected f) (t : Thing α) :
    (f t).1.selected = t.selected ∧ (f t).1.id = t.id ∧ (f t).1.size = t.size ∧
      (f t).1.el = t.el := by
  cases h : t.selected with
  | true =>
    obtain ⟨x, y, hxy⟩ := (hf t).1 h
    simp [hxy, h]
  | false =>
    rw [(hf t).2 h]
    simp [h]

theorem MovesSelected.fst_mem_unit {α : Type} [LinearOrderedField α]
    {f : Thing α → Thing α × Option (Thing α)} (hf : MovesSelected f) (t : Thing α)
    (h : t.selected = true) :
    0 ≤ (f t).1.x ∧ (f t).1.x ≤ 1 ∧ 0 ≤ (f t).1.y ∧ (f t).1.y ≤ 1 := by
  obtain ⟨x, y, hxy⟩ := (hf t).1 h
  rw [hxy]
  exact ⟨(Numbers.clamp_mem_unit x).1, (Numbers.clamp_mem_unit x).2,
    (Numbers.clamp_mem_unit y).1, (Numbers.clamp_mem_unit y).2⟩

theorem MovesSelected.rendered_eq_filter {α : Type} [LinearOrderedField α]
    {f : Thing α → Thing α × Option (Thing α)} (hf : MovesSelected f) (things : List (Thing α)) :
    (things.map f).filterMap Prod.snd
      = ((things.map f).map Prod.fst).filter (fun t => t.selected) := by
  induction things with
  | nil => rfl
  | cons t ts ih =>
    cases h : t.selected with
    | true =>
      obtain ⟨x, y, hxy⟩ := (hf t).1 h
      simp [hxy, h, ih]
    | false =>
      simp [(hf t).2 h, h, ih]

theorem MovesSelected.length_rendered {α : Type} [LinearOrderedField α]
    {f : Thing α → Thing α × Option (Thing α)} (hf : MovesSelected f) (things : List (Thing α)) :
    ((things.map f).filterMap Prod.snd).length = things.countP (fun t => t.selected) := by
  induction things with
  | nil => rfl
  | cons t ts ih =>
    cases h : t.selected with
    | true =>
      obtain ⟨x, y, hxy⟩ := (hf t).1 h
      simp only [List.map_cons, hxy, List.filterMap_cons, List.length_cons, ih]
      rw [List.countP_cons_of_pos _ _ h]
    | false =>
      simp only [List.map_cons, (hf t).2 h, List.filterMap_cons, ih]
      rw [List.countP_cons_of_neg]
      simp [h]

/-! ## The entity collection after one frame tick of a gesturing state -/

theorem V3.use_things_of_gesturing {α : Type} [LinearOrderedField α] (hypot : α → α → α)
    (w : V3.World α) (h : V3.gesturing w.state = true) :
    ∃ f : Thing α → Thing α × Option (Thing α), MovesSelected f ∧
      (V3.use hypot w).1.state.things = (w.state.things.map f).map Prod.fst ∧
      (V3.use hypot w).2 = (w.state.things.map f).filterMap Prod.snd := by
  simp only [V3.gesturing, Bool.and_eq_true] at h
  obtain ⟨r, hr⟩ := Option.isSome_iff_exists.mp h.1.1
  obtain ⟨g, hg⟩ := Option.isSome_iff_exists.mp h.1.2
  obtain ⟨s, hs⟩ := Option.isSome_iff_exists.mp h.2
  exact ⟨V3.moveThing hypot r s, V3.movesSelected_moveThing hypot r s,
    by rw [V3.use_of_gesturing hypot w r g s hr hg hs],
    by rw [V3.use_of_gesturing hypot w r g s hr hg hs]⟩

theorem V2.use_things_of_gesturing_v2 {α : Type} [LinearOrderedField α] [FloorRing α]
    (w : V2.World α) (h : V2.gesturing w.state = true) (hn : 1 ≤ w.tracker.size) :
    ∃ f : Thing α → Thing α × Option (Thing α), MovesSelected f ∧
      (V2.use w).1.state.things = (w.state.things.map f).map Prod.fst ∧
      (V2.use w).2 = (w.state.things.map f).filterMap Prod.snd := by
  simp only [V2.gesturing, Bool.and_eq_true] at h
  obtain ⟨r, hr⟩ := Option.isSome_iff_exists.mp h.1
  obtain ⟨g, hg⟩ := Option.isSome_iff_exists.mp h.2
  cases ht : w.tracker.trackedByAge with
  | nil => simp [Tracker.size, Tracker.trackedByAge] at hn ht; simp [ht] at hn
  | cons oldest others =>
    exact ⟨V2.moveThing oldest.vectorCartesian, V2.movesSelected_moveThing_v2 _,
      by rw [V2.use_of_gesturing_v2 w r g oldest others hr hg ht],
      by rw [V2.use_of_gesturing_v2 w r g oldest others hr hg ht]⟩

theorem MovesSelected.selected_mem_unit {α : Type} [LinearOrderedField α]
    {f : Thing α → Thing α × Option (Thing α)} (hf : MovesSelected f) (things : List (Thing α))
    (t : Thing α) (ht : t ∈ (things.map f).map Prod.fst) (hs : t.selected = true) :
    0 ≤ t.x ∧ t.x ≤ 1 ∧ 0 ≤ t.y ∧ t.y ≤ 1 := by
  simp only [List.map_map, List.mem_map, Function.comp] at ht
  obtain ⟨t0, -, rfl⟩ := ht
  exact hf.fst_mem_unit t0 (by rw [← (hf.fst_selected t0).1]; exact hs)

theorem MovesSelected.rendered_mem_unit {α : Type} [LinearOrderedField α]
    {f : Thing α → Thing α × Option (Thing α)} (hf : MovesSelected f) (things : List (Thing α))
    (t : Thing α) (ht : t ∈ (things.map f).filterMap Prod.snd) :
    t.selected = true ∧ 0 ≤ t.x ∧ t.x ≤ 1 ∧ 0 ≤ t.y ∧ t.y ≤ 1 := by
  rw [hf.rendered_eq_filter, List.mem_filter] at ht
  exact ⟨ht.2, hf.selected_mem_unit things t ht.1 ht.2⟩

/-! ## In v2, a rectangle means a tracked touch -/

theorem V2.updateRect_rect_isSome_v2 {α : Type} [LinearOrderedField α] (w : V2.World α) :
    (V2.updateRect w).state.rect.isSome = decide (1 ≤ w.tracker.size) := by
  unfold V2.updateRect
  split
  next h =>
    have hlen := Tracker.length_valuesByAge w.tracker
    split
    next p ps hp => simpa [V2.minNumberOfFingerForGesture] using h
    next hnil =>
      rw [hnil] at hlen
      simp [V2.minNumberOfFingerForGesture] at h
      simp at hlen
      omega
  next h =>
    simp [V2.minNumberOfFingerForGesture] at h
    simp [h]

theorem V2.use_rect_tracker {α : Type} [LinearOrderedField α] [FloorRing α] (w : V2.World α) :
    (V2.use w).1.state.rect = w.state.rect ∧ (V2.use w).1.tracker = w.tracker := by
  cases hg : V2.gesturing w.state with
  | false => rw [V2.use_of_idle_v2 w hg]; exact ⟨rfl, rfl⟩
  | true =>
    cases ht : w.tracker.trackedByAge with
    | nil => rw [V2.use_of_gesturing_untracked w hg ht]; exact ⟨rfl, rfl⟩
    | cons oldest others =>
      simp only [V2.gesturing, Bool.and_eq_true] at hg
      obtain ⟨r, hr⟩ := Option.isSome_iff_exists.mp hg.1
      obtain ⟨g, hg'⟩ := Option.isSome_iff_exists.mp hg.2
      rw [V2.use_of_gesturing_v2 w r g oldest others hr hg' ht]
      simp only [V2.updateGestureStartPosition_rect_v2, V2.updateGestureStartPosition_tracker_v2]
      exact ⟨trivial, trivial⟩

theorem V2.step_rect_iff_tracked {α : Type} [LinearOrderedField α] [FloorRing α]
    (checkIntersection : Thing α → Option (Rect α) → Bool) (w : V2.World α) (e : V2.Event α)
    (h : w.state.rect.isSome = true ↔ 1 ≤ w.tracker.size) :
    (V2.step checkIntersection w e).state.rect.isSome = true ↔
      1 ≤ (V2.step checkIntersection w e).tracker.size := by
  cases e with
  | pointerDown pointerId p =>
    simp only [V2.step, V2.onPointerDown, V2.updateThingsSelection,
      V2.updateGestureStartPosition_rect_v2, V2.updateGestureStartPosition_tracker_v2,
      V2.updateRect_rect_isSome_v2, V2.updateRect_tracker_v2]
    simp
  | pointerMove pointerId p =>
    simp only [V2.step, V2.onPointerMove, V2.updateRect_rect_isSome_v2, V2.updateRect_tracker_v2]
    simp
  | pointerUp pointerId =>
    simp only [V2.step, V2.onPointerUp, V2.updateThingsSelection, V2.updateRect_rect_isSome_v2,
      V2.updateRect_tracker_v2]
    simp
  | frame =>
    simp only [V2.step, (V2.use_rect_tracker w).1, (V2.use_rect_tracker w).2]
    exact h

/-- In every state v2 reaches from its start state, `rect` is defined exactly
when a touch is tracked; so a reachable gesturing state has a tracked touch. -/
theorem V2.reachable_rect_iff_tracked {α : Type} [LinearOrderedField α] [FloorRing α]
    (checkIntersection : Thing α → Option (Rect α) → Bool) (things : List (Thing α))
    (events : List (V2.Event α)) :
    (V2.run checkIntersection (V2.start things) events).state.rect.isSome = true ↔
      1 ≤ (V2.run checkIntersection (V2.start things) events).tracker.size := by
  have key : ∀ (es : List (V2.Event α)) (w : V2.World α),
      (w.state.rect.isSome = true ↔ 1 ≤ w.tracker.size) →
      ((V2.run checkIntersection w es).state.rect.isSome = true ↔
        1 ≤ (V2.run checkIntersection w es).tracker.size) := by
    intro es
    induction es with
    | nil => intro w h; exact h
    | cons e es ih =>
      intro w h
      exact ih _ (V2.step_rect_iff_tracked checkIntersection w e h)
  exact key events (V2.start things) (by simp [V2.start, Tracker.size])

/-- C5: after one frame tick of a gesturing state (v3: any `rect`, start rect
and entity positions; v2: any vector of the oldest tracked touch) every
selected entity of the new collection, and every entity handed to `Things.use`,
lies in the unit square: `0 ≤ x ≤ 1` and `0 ≤ y ≤ 1`. -/
theorem use_clamps_selected {α : Type} [LinearOrderedField α] [FloorRing α]
    (hypot : α → α → α) (w3 : V3.World α) (w2 : V2.World α)
    (hg3 : V3.gesturing w3.state = true) (hg2 : V2.gesturing w2.state = true)
    (hn2 : 1 ≤ w2.tracker.size) :
    (∀ t ∈ (V3.use hypot w3).1.state.things, t.selected = true →
      0 ≤ t.x ∧ t.x ≤ 1 ∧ 0 ≤ t.y ∧ t.y ≤ 1) ∧
    (∀ t ∈ (V3.use hypot w3).2, t.selected = true ∧ 0 ≤ t.x ∧ t.x ≤ 1 ∧ 0 ≤ t.y ∧ t.y ≤ 1) ∧
    (∀ t ∈ (V2.use w2).1.state.things, t.selected = true →
      0 ≤ t.x ∧ t.x ≤ 1 ∧ 0 ≤ t.y ∧ t.y ≤ 1) ∧
    (∀ t ∈ (V2.use w2).2, t.selected = true ∧ 0 ≤ t.x ∧ t.x ≤ 1 ∧ 0 ≤ t.y ∧ t.y ≤ 1) := by
  obtain ⟨f3, hf3, ht3, hu3⟩ := V3.use_things_of_gesturing hypot w3 hg3
  obtain ⟨f2, hf2, ht2, hu2⟩ := V2.use_things_of_gesturing_v2 w2 hg2 hn2
  rw [ht3, hu3, ht2, hu2]
  exact ⟨fun t ht hs => hf3.selected_mem_unit _ t ht hs,
    fun t ht => hf3.rendered_mem_unit _ t ht,
    fun t ht hs => hf2.selected_mem_unit _ t ht hs,
    fun t ht => hf2.rendered_mem_unit _ t ht⟩

/-- Witness for C5, at the sample gesturing states. -/
theorem use_clamps_selected_witness :
    (V3.gesturing V3.sampleGesture.state = true ∧ V2.gesturing V2.sampleGesture.state = true ∧
      1 ≤ V2.sampleGesture.tracker.size) ∧
    ((∀ t ∈ (V3.use sampleHypot V3.sampleGesture).1.state.things, t.selected = true →
      0 ≤ t.x ∧ t.x ≤ 1 ∧ 0 ≤ t.y ∧ t.y ≤ 1) ∧
    (∀ t ∈ (V3.use sampleHypot V3.sampleGesture).2,
      t.selected = true ∧ 0 ≤ t.x ∧ t.x ≤ 1 ∧ 0 ≤ t.y ∧ t.y ≤ 1) ∧
    (∀ t ∈ (V2.use V2.sampleGesture).1.state.things, t.selected = true →
      0 ≤ t.x ∧ t.x ≤ 1 ∧ 0 ≤ t.y ∧ t.y ≤ 1) ∧
    (∀ t ∈ (V2.use V2.sampleGesture).2,
      t.selected = true ∧ 0 ≤ t.x ∧ t.x ≤ 1 ∧ 0 ≤ t.y ∧ t.y ≤ 1)) :=
  ⟨⟨rfl, rfl, by decide⟩,
    use_clamps_selected sampleHypot V3.sampleGesture V2.sampleGesture rfl rfl (by decide)⟩

/-- C7, as worded, fails: in the sample gesturing states three entities are
held and one is selected; the frame tick hands one entity to `Things.use`, not
three, and entity 1 is not rendered at all. -/
theorem use_renders_selected_only :
    V3.sampleGesture.state.things.length = 3 ∧
    (V3.use sampleHypot V3.sampleGesture).2.length = 1 ∧
    (∀ t ∈ (V3.use sampleHypot V3.sampleGesture).2, t.id ≠ 1) ∧
    V2.sampleGesture.state.things.length = 3 ∧
    (V2.use V2.sampleGesture).2.length = 1 ∧
    (∀ t ∈ (V2.use V2.sampleGesture).2, t.id ≠ 1) := by
  simp [V3.sampleGesture, V3.use, V3.moveThing, V2.sampleGesture, V2.use, V2.moveThing,
    Tracker.trackedByAge, Util.vectorFromMiddle]

/-- C7, amended: a frame tick of an idle state hands every entity to
`Things.use` exactly once, in order (v3: the entities as they are; v2: the
drifted entities of the new collection). A frame tick of a gesturing state
hands exactly the selected entities of the new collection to `Things.use`, once
each and in order, so as many as were selected before; in v2 with nothing
tracked it renders nothing. -/
theorem use_rendered {α : Type} [LinearOrderedField α] [FloorRing α]
    (hypot : α → α → α) (w3 : V3.World α) (w2 : V2.World α) :
    (V3.use hypot w3).2 =
      (if V3.gesturing w3.state = true then
        (V3.use hypot w3).1.state.things.filter (fun t => t.selected)
      else w3.state.things) ∧
    (V3.use hypot w3).2.length =
      (if V3.gesturing w3.state = true then w3.state.things.countP (fun t => t.selected)
      else w3.state.things.length) ∧
    (V2.use w2).2 =
      (if V2.gesturing w2.state = true then
        (if w2.tracker.size = 0 then []
        else (V2.use w2).1.state.things.filter (fun t => t.selected))
      else (V2.use w2).1.state.things) ∧
    (V2.use w2).2.length =
      (if V2.gesturing w2.state = true then
        (if w2.tracker.size = 0 then 0 else w2.state.things.countP (fun t => t.selected))
      else w2.state.things.length) := by
  have h3 : (V3.use hypot w3).2 =
      (if V3.gesturing w3.state = true then
        (V3.use hypot w3).1.state.things.filter (fun t => t.selected)
      else w3.state.things) ∧
    (V3.use hypot w3).2.length =
      (if V3.gesturing w3.state = true then w3.state.things.countP (fun t => t.selected)
      else w3.state.things.length) := by
    cases hg : V3.gesturing w3.state with
    | true =>
      obtain ⟨f, hf, ht, hu⟩ := V3.use_things_of_gesturing hypot w3 hg
      simp only [if_true, ht, hu]
      exact ⟨hf.rendered_eq_filter _, hf.length_rendered _⟩
    | false =>
      rw [V3.use_of_idle hypot w3 hg]
      simp
  have h2 : (V2.use w2).2 =
      (if V2.gesturing w2.state = true then
        (if w2.tracker.size = 0 then []
        else (V2.use w2).1.state.things.filter (fun t => t.selected))
      else (V2.use w2).1.state.things) ∧
    (V2.use w2).2.length =
      (if V2.gesturing w2.state = true then
        (if w2.tracker.size = 0 then 0 else w2.state.things.countP (fun t => t.selected))
      else w2.state.things.length) := by
    cases hg : V2.gesturing w2.state with
    | true =>
      by_cases hn : w2.tracker.size = 0
      · have ht : w2.tracker.trackedByAge = [] := by
          simpa [Tracker.size, Tracker.trackedByAge] using hn
        rw [V2.use_of_gesturing_untracked w2 hg ht]
        simp [hn]
      · obtain ⟨f, hf, ht, hu⟩ := V2.use_things_of_gesturing_v2 w2 hg (by omega)
        simp only [if_true, hn, if_false, ht, hu]
        exact ⟨hf.rendered_eq_filter _, hf.length_rendered _⟩
    | false =>
      rw [V2.use_of_idle_v2 w2 hg]
      simp
  exact ⟨h3.1, h3.2, h2.1, h2.2⟩

/-- What a gesturing callback does at each index of the collection. -/
theorem MovesSelected.getElem?_map {α : Type} [LinearOrderedField α]
    {f : Thing α → Thing α × Option (Thing α)} (hf : MovesSelected f) (things : List (Thing α))
    (i : Nat) (t : Thing α) (hi : things[i]? = some t) :
    ∃ t1 : Thing α, ((things.map f).map Prod.fst)[i]? = some t1 ∧ t1.id = t.id ∧
      t1.selected = t.selected ∧ t1.size = t.size ∧ t1.el = t.el ∧
      (t.selected = false → t1 = t) := by
  refine ⟨(f t).1, by simp [hi], (hf.fst_selected t).2.1, (hf.fst_selected t).1,
    (hf.fst_selected t).2.2.1, (hf.fst_selected t).2.2.2, fun h => ?_⟩
  rw [(hf t).2 h]

/-- C10: one frame tick of a gesturing state keeps the length and the order of
the collection (at each index the entity keeps its identifier, selected flag,
size and handle), and every entity whose selected flag is false is identical
to what it was before the tick. -/
theorem use_moves_selected_only {α : Type} [LinearOrderedField α] [FloorRing α]
    (hypot : α → α → α) (w3 : V3.World α) (w2 : V2.World α)
    (hg3 : V3.gesturing w3.state = true) (hg2 : V2.gesturing w2.state = true) :
    (V3.use hypot w3).1.state.things.length = w3.state.things.length ∧
    (∀ (i : Nat) (t : Thing α), w3.state.things[i]? = some t →
      ∃ t1 : Thing α, (V3.use hypot w3).1.state.things[i]? = some t1 ∧ t1.id = t.id ∧
        t1.selected = t.selected ∧ t1.size = t.size ∧ t1.el = t.el ∧
        (t.selected = false → t1 = t)) ∧
    (V2.use w2).1.state.things.length = w2.state.things.length ∧
    (∀ (i : Nat) (t : Thing α), w2.state.things[i]? = some t →
      ∃ t1 : Thing α, (V2.use w2).1.state.things[i]? = some t1 ∧ t1.id = t.id ∧
        t1.selected = t.selected ∧ t1.size = t.size ∧ t1.el = t.el ∧
        (t.selected = false → t1 = t)) := by
  obtain ⟨f3, hf3, ht3, -⟩ := V3.use_things_of_gesturing hypot w3 hg3
  refine ⟨by simp [ht3], fun i t hi => by rw [ht3]; exact hf3.getElem?_map _ i t hi, ?_⟩
  by_cases hn : w2.tracker.size = 0
  · have ht : w2.tracker.trackedByAge = [] := by
      simpa [Tracker.size, Tracker.trackedByAge] using hn
    rw [V2.use_of_gesturing_untracked w2 hg2 ht]
    exact ⟨rfl, fun i t hi => ⟨t, hi, rfl, rfl, rfl, rfl, fun _ => rfl⟩⟩
  · obtain ⟨f2, hf2, ht2, -⟩ := V2.use_things_of_gesturing_v2 w2 hg2 (by omega)
    exact ⟨by simp [ht2], fun i t hi => by rw [ht2]; exact hf2.getElem?_map _ i t hi⟩

/-- Witness for C10, at the sample gesturing states. -/
theorem use_moves_selected_only_witness :
    (V3.gesturing V3.sampleGesture.state = true ∧ V2.gesturing V2.sampleGesture.state = true) ∧
    ((V3.use sampleHypot V3.sampleGesture).1.state.things.length
        = V3.sampleGesture.state.things.length ∧
    (∀ (i : Nat) (t : Thing ℚ), V3.sampleGesture.state.things[i]? = some t →
      ∃ t1 : Thing ℚ, (V3.use sampleHypot V3.sampleGesture).1.state.things[i]? = some t1 ∧
        t1.id = t.id ∧ t1.selected = t.selected ∧ t1.size = t.size ∧ t1.el = t.el ∧
        (t.selected = false → t1 = t)) ∧
    (V2.use V2.sampleGesture).1.state.things.length = V2.sampleGesture.state.things.length ∧
    (∀ (i : Nat) (t : Thing ℚ), V2.sampleGesture.state.things[i]? = some t →
      ∃ t1 : Thing ℚ, (V2.use V2.sampleGesture).1.state.things[i]? = some t1 ∧
        t1.id = t.id ∧ t1.selected = t.selected ∧ t1.size = t.size ∧ t1.el = t.el ∧
        (t.selected = false → t1 = t))) :=
  ⟨⟨rfl, rfl⟩, use_moves_selected_only sampleHypot V3.sampleGesture V2.sampleGesture rfl rfl⟩


/-! ## Growth of the gesture rectangle -/

/-- With the ideal `Math.hypot`, `rectGrowth` is the difference of the two
half-diagonals. -/
theorem Util.rectGrowth_real (initialSize currentSize : Rect ℝ) :
    Util.rectGrowth (fun a b => Real.sqrt (a ^ 2 + b ^ 2)) initialSize currentSize =
      Real.sqrt ((initialSize.width / 2) ^ 2 + (initialSize.height / 2) ^ 2) -
        Real.sqrt ((currentSize.width / 2) ^ 2 + (currentSize.height / 2) ^ 2) := by
  simp only [Util.rectGrowth, Points.distance, Rects.center]
  congr 2 <;> ring_nf

/-- In exact arithmetic, with the ideal `Math.hypot` over the reals: for
rectangles with non-negative widths and heights and the same center,
`rectGrowth(start, current)` is negative when the current rectangle is wider
and higher than the start rectangle, and positive when it is narrower and
lower. Rounded to doubles the differences can vanish, so this is not a
statement about the values the script computes. -/
theorem rectGrowth_sign_exact (start current : Rect ℝ)
    (hsw : 0 ≤ start.width) (hsh : 0 ≤ start.height)
    (hcw : 0 ≤ current.width) (hch : 0 ≤ current.height)
    (_hcenter : Rects.center start = Rects.center current) :
    (start.width < current.width ∧ start.height < current.height →
      Util.rectGrowth (fun a b => Real.sqrt (a ^ 2 + b ^ 2)) start current < 0) ∧
    (current.width < start.width ∧ current.height < start.height →
      0 < Util.rectGrowth (fun a b => Real.sqrt (a ^ 2 + b ^ 2)) start current) := by
  rw [Util.rectGrowth_real]
  constructor
  · rintro ⟨hw, hh⟩
    have : (start.width / 2) ^ 2 + (start.height / 2) ^ 2
        < (current.width / 2) ^ 2 + (current.height / 2) ^ 2 := by nlinarith
    have := Real.sqrt_lt_sqrt (by positivity) this
    linarith
  · rintro ⟨hw, hh⟩
    have : (current.width / 2) ^ 2 + (current.height / 2) ^ 2
        < (start.width / 2) ^ 2 + (start.height / 2) ^ 2 := by nlinarith
    have := Real.sqrt_lt_sqrt (by positivity) this
    linarith

/-- An instance of the sign law in exact arithmetic: the square of side 2
centred at (2, 2) and the square of side 4 with the same center. -/
theorem rectGrowth_sign_exact_instance :
    Util.rectGrowth (fun a b => Real.sqrt (a ^ 2 + b ^ 2))
        (⟨1, 1, 2, 2⟩ : Rect ℝ) ⟨0, 0, 4, 4⟩ < 0 ∧
    0 < Util.rectGrowth (fun a b => Real.sqrt (a ^ 2 + b ^ 2))
        (⟨0, 0, 4, 4⟩ : Rect ℝ) ⟨1, 1, 2, 2⟩ :=
  ⟨(rectGrowth_sign_exact ⟨1, 1, 2, 2⟩ ⟨0, 0, 4, 4⟩ (by norm_num) (by norm_num) (by norm_num)
      (by norm_num) (by simp [Rects.center]; norm_num)).1 ⟨by norm_num, by norm_num⟩,
    (rectGrowth_sign_exact ⟨0, 0, 4, 4⟩ ⟨1, 1, 2, 2⟩ (by norm_num) (by norm_num) (by norm_num)
      (by norm_num) (by simp [Rects.center]; norm_num)).2 ⟨by norm_num, by norm_num⟩⟩


/-! ## Idle frame ticks -/

theorem Numbers.wrapLoop_mem_unit {α : Type} [LinearOrderedField α] (n : Nat) :
    ∀ v : α, -(n : α) ≤ v → v ≤ n + 1 →
      0 ≤ Numbers.wrapLoop 0 1 (n + 1) v ∧ Numbers.wrapLoop 0 1 (n + 1) v ≤ 1 := by
  induction n with
  | zero =>
    intro v h0 h1
    simp only [Nat.cast_zero, neg_zero, zero_add] at h0 h1
    simp only [Numbers.wrapLoop]
    split
    · split
      · exact ⟨h0, h1⟩
      · split
        · exact ⟨h0, h1⟩
        · rw [if_neg (not_lt.mpr h1), if_neg (not_lt.mpr h0)]
          exact ⟨h0, h1⟩
    · exact ⟨h0, h1⟩
  | succ m ih =>
    intro v h0 h1
    rw [Numbers.wrapLoop]
    push_cast at h0 h1
    split
    · split
      next h => rw [h]; exact ⟨zero_le_one, le_refl 1⟩
      next =>
        split
        next h => rw [h]; exact ⟨le_refl 0, zero_le_one⟩
        next =>
          split
          next hgt =>
            apply ih
            · have : (0 : α) ≤ m := Nat.cast_nonneg m
              linarith
            · linarith
          next hgt =>
            split
            next hlt =>
              apply ih
              · linarith
              · linarith
            next hlt =>
              exact absurd (le_antisymm (not_lt.mp hgt) (by
                rename_i hcond _ _
                rcases hcond with hc | hc
                · exact absurd (le_antisymm hc (not_lt.mp hlt)) ‹¬v = 0›
                · exact hc)) ‹¬v = 1›
    next hcond =>
      simp only [not_or, not_le, ge_iff_le] at hcond
      exact ⟨le_of_lt hcond.1, le_of_lt hcond.2⟩

/-- On the default range the loop of `wrap` ends within the rounds it is given:
the result lies in the unit interval. -/
theorem Numbers.wrap_mem_unit {α : Type} [LinearOrderedField α] [FloorRing α] (v : α) :
    0 ≤ Numbers.wrap v 0 1 ∧ Numbers.wrap v 0 1 ≤ 1 := by
  unfold Numbers.wrap
  split
  · exact ⟨le_refl 0, zero_le_one⟩
  · split
    · exact ⟨le_refl 0, zero_le_one⟩
    · have hceil : |v| ≤ ((Int.toNat ⌈|v - 0| / (1 - 0)⌉ : Nat) : α) := by
        simp only [sub_zero, div_one]
        have h1 : |v| ≤ ((⌈|v|⌉ : Int) : α) := Int.le_ceil _
        have h2 : (0 : Int) ≤ ⌈|v|⌉ := Int.ceil_nonneg (abs_nonneg v)
        have h3 : ((Int.toNat ⌈|v|⌉ : Nat) : Int) = ⌈|v|⌉ := Int.toNat_of_nonneg h2
        have h4 : ((Int.toNat ⌈|v|⌉ : Nat) : α) = ((⌈|v|⌉ : Int) : α) := by
          rw [← Int.cast_natCast, h3]
        rw [h4]; exact h1
      apply Numbers.wrapLoop_mem_unit
      · have := neg_abs_le v
        linarith
      · have := le_abs_self v
        linarith

theorem Numbers.wrap_of_mem_Ico {α : Type} [LinearOrderedField α] [FloorRing α] (v : α)
    (h0 : 0 ≤ v) (h1 : v < 1) : Numbers.wrap v 0 1 = v := by
  unfold Numbers.wrap
  split
  next h => exact h.symm
  next h =>
    have hpos : 0 < v := lt_of_le_of_ne h0 (Ne.symm h)
    rw [if_neg (ne_of_lt h1)]
    simp only [Numbers.wrapLoop]
    rw [if_neg]
    simp only [not_or, not_le, ge_iff_le]
    exact ⟨hpos, h1⟩

theorem Numbers.wrap_one {α : Type} [LinearOrderedField α] [FloorRing α] :
    Numbers.wrap (1 : α) 0 1 = 0 := by
  simp [Numbers.wrap]

theorem V2.driftThing_zero {α : Type} [LinearOrderedField α] [FloorRing α] (t : Thing α)
    (hx0 : 0 ≤ t.x) (hx1 : t.x < 1) (hy0 : 0 ≤ t.y) (hy1 : t.y < 1) :
    V2.driftThing ⟨0, 0⟩ t = t := by
  simp only [V2.driftThing, Points.sum, Points.wrap, add_zero,
    Numbers.wrap_of_mem_Ico t.x hx0 hx1, Numbers.wrap_of_mem_Ico t.y hy0 hy1]

theorem V2.use_idle_fixed {α : Type} [LinearOrderedField α] [FloorRing α] (w : V2.World α)
    (hg : V2.gesturing w.state = false) (hoff : w.state.offsetVector = ⟨0, 0⟩)
    (hpos : ∀ t ∈ w.state.things, 0 ≤ t.x ∧ t.x < 1 ∧ 0 ≤ t.y ∧ t.y < 1) :
    V2.use w = (w, w.state.things) := by
  have hthings : w.state.things.map (V2.driftThing w.state.offsetVector) = w.state.things := by
    rw [hoff]
    conv_rhs => rw [← List.map_id w.state.things]
    apply List.map_congr_left
    intro t ht
    obtain ⟨a, b, c, d⟩ := hpos t ht
    simpa using V2.driftThing_zero t a b c d
  rw [V2.use_of_idle_v2 w hg, hthings]
  obtain ⟨tracker, state⟩ := w
  obtain ⟨things, rect, anchor, offset⟩ := state
  simp only at hoff
  subst hoff
  simp

/-- C8, evaluated in v2: the start state is idle with offset (0, 0) and its
sample entities lie in the unit square, the third at x = 1; one frame tick
wraps that x to 0, so its position changes. -/
theorem idle_tick_wraps_boundary :
    V2.gesturing (V2.start sampleThings).state = false ∧
    (V2.start sampleThings).state.offsetVector = ⟨0, 0⟩ ∧
    (∀ t ∈ (V2.start sampleThings).state.things, 0 ≤ t.x ∧ t.x ≤ 1 ∧ 0 ≤ t.y ∧ t.y ≤ 1) ∧
    (V2.start sampleThings).state.things.map (fun t => (t.x, t.y))
      = [(0, 0), (3 / 4, 1 / 4), (1, 1 / 2)] ∧
    (V2.use (V2.start sampleThings)).1.state.things.map (fun t => (t.x, t.y))
      = [(0, 0), (3 / 4, 1 / 4), (0, 1 / 2)] ∧
    (V2.use (V2.start sampleThings)).1.state.things.map (fun t => (t.x, t.y))
      ≠ (V2.start sampleThings).state.things.map (fun t => (t.x, t.y)) := by
  have h34 : Numbers.wrap (3 / 4 : ℚ) 0 1 = 3 / 4 :=
    Numbers.wrap_of_mem_Ico _ (by norm_num) (by norm_num)
  have h14 : Numbers.wrap (1 / 4 : ℚ) 0 1 = 1 / 4 :=
    Numbers.wrap_of_mem_Ico _ (by norm_num) (by norm_num)
  have h12 : Numbers.wrap (1 / 2 : ℚ) 0 1 = 1 / 2 :=
    Numbers.wrap_of_mem_Ico _ (by norm_num) (by norm_num)
  have h4 : Numbers.wrap (4⁻¹ : ℚ) 0 1 = 4⁻¹ :=
    Numbers.wrap_of_mem_Ico _ (by norm_num) (by norm_num)
  have h2 : Numbers.wrap (2⁻¹ : ℚ) 0 1 = 2⁻¹ :=
    Numbers.wrap_of_mem_Ico _ (by norm_num) (by norm_num)
  have h0 : Numbers.wrap (0 : ℚ) 0 1 = 0 := Numbers.wrap_of_mem_Ico _ (by norm_num) (by norm_num)
  have h1 : Numbers.wrap (1 : ℚ) 0 1 = 0 := Numbers.wrap_one
  refine ⟨rfl, rfl, ?_, ?_, ?_, ?_⟩
  · simp [V2.start, sampleThings]
    norm_num
  · simp [V2.start, sampleThings]
  · simp [V2.use, V2.start, sampleThings, V2.driftThing, Points.sum, Points.wrap, h34, h14, h12,
      h0, h1, h2, h4]
  · simp [V2.use, V2.start, sampleThings, V2.driftThing, Points.sum, Points.wrap, h34, h14, h12,
      h0, h1, h2, h4]

/-- Away from the upper boundary idle ticks change nothing: any number of frame
ticks leaves an idle state of v3 as it is, whatever the entity positions; and
leaves an idle state of v2 whose `offsetVector` is (0, 0) as it is when every
entity has `0 ≤ x < 1` and `0 ≤ y < 1`. -/
theorem idle_ticks_fixed {α : Type} [LinearOrderedField α] [FloorRing α]
    (hypot : α → α → α) (w3 : V3.World α) (w2 : V2.World α) (n : Nat)
    (hg3 : V3.gesturing w3.state = false) (hg2 : V2.gesturing w2.state = false)
    (hoff : w2.state.offsetVector = ⟨0, 0⟩)
    (hpos : ∀ t ∈ w2.state.things, 0 ≤ t.x ∧ t.x < 1 ∧ 0 ≤ t.y ∧ t.y < 1) :
    (fun w => (V3.use hypot w).1)^[n] w3 = w3 ∧
    ((fun w => (V3.use hypot w).1)^[n] w3).state.things = w3.state.things ∧
    (fun w => (V2.use w).1)^[n] w2 = w2 ∧
    ((fun w => (V2.use w).1)^[n] w2).state.things = w2.state.things := by
  have h3 : (fun w => (V3.use hypot w).1)^[n] w3 = w3 :=
    Function.iterate_fixed (by simp only [V3.use_of_idle hypot w3 hg3]) n
  have h2 : (fun w => (V2.use w).1)^[n] w2 = w2 :=
    Function.iterate_fixed (by simp only [V2.use_idle_fixed w2 hg2 hoff hpos]) n
  exact ⟨h3, by rw [h3], h2, by rw [h2]⟩


/-- Three idle frame ticks from the start states change nothing. -/
theorem idle_ticks_fixed_witness :
    (V3.gesturing (V3.start sampleThings).state = false ∧
      V2.gesturing (V2.start (sampleThings.take 2)).state = false ∧
      (V2.start (sampleThings.take 2)).state.offsetVector = ⟨0, 0⟩ ∧
      ∀ t ∈ (V2.start (sampleThings.take 2)).state.things,
        0 ≤ t.x ∧ t.x < 1 ∧ 0 ≤ t.y ∧ t.y < 1) ∧
    ((fun w => (V3.use sampleHypot w).1)^[3] (V3.start sampleThings) = V3.start sampleThings ∧
    ((fun w => (V3.use sampleHypot w).1)^[3] (V3.start sampleThings)).state.things
      = (V3.start sampleThings).state.things ∧
    (fun w => (V2.use w).1)^[3] (V2.start (sampleThings.take 2))
      = V2.start (sampleThings.take 2) ∧
    ((fun w => (V2.use w).1)^[3] (V2.start (sampleThings.take 2))).state.things
      = (V2.start (sampleThings.take 2)).state.things) :=
  ⟨⟨rfl, rfl, rfl, by simp [V2.start, sampleThings]; norm_num⟩,
    idle_ticks_fixed sampleHypot (V3.start sampleThings) (V2.start (sampleThings.take 2)) 3
      rfl rfl rfl (by simp [V2.start, sampleThings]; norm_num)⟩

/-! ## Selection -/

/-- C9: `updateThingsSelection` keeps the length and the order of the
collection; at each index the entity keeps its identifier, position, size and
handle, and its selected flag becomes `Things.checkIntersection(entity, rect)`;
the rest of the state is untouched. When the test is false without a rectangle,
no entity is selected while `rect` is undefined; when the test does not read
the selected flag, running the resolver twice equals running it once. -/
theorem updateThingsSelection_spec {α : Type} [LinearOrderedField α]
    (checkIntersection : Thing α → Option (Rect α) → Bool) (w3 : V3.World α) (w2 : V2.World α)
    (hAbsent : ∀ t : Thing α, checkIntersection t none = false)
    (hFlag : ∀ (t : Thing α) (b : Bool) (r : Option (Rect α)),
      checkIntersection { t with selected := b } r = checkIntersection t r) :
    ((V3.updateThingsSelection checkIntersection w3).state.things.length
        = w3.state.things.length ∧
      (∀ (i : Nat) (t : Thing α), w3.state.things[i]? = some t →
        ∃ t1 : Thing α,
          (V3.updateThingsSelection checkIntersection w3).state.things[i]? = some t1 ∧
          t1.id = t.id ∧ t1.x = t.x ∧ t1.y = t.y ∧ t1.size = t.size ∧ t1.el = t.el ∧
          t1.selected = checkIntersection t w3.state.rect) ∧
      (w3.state.rect = none →
        ∀ t ∈ (V3.updateThingsSelection checkIntersection w3).state.things,
          t.selected = false) ∧
      (V3.updateThingsSelection checkIntersection w3).tracker = w3.tracker ∧
      (V3.updateThingsSelection checkIntersection w3).state.rect = w3.state.rect ∧
      (V3.updateThingsSelection checkIntersection w3).state.gestureSizeStart
        = w3.state.gestureSizeStart ∧
      (V3.updateThingsSelection checkIntersection w3).state.gestureStartPosition
        = w3.state.gestureStartPosition ∧
      (V3.updateThingsSelection checkIntersection w3).state.offsetVector
        = w3.state.offsetVector ∧
      V3.updateThingsSelection checkIntersection (V3.updateThingsSelection checkIntersection w3)
        = V3.updateThingsSelection checkIntersection w3) ∧
    ((V2.updateThingsSelection checkIntersection w2).state.things.length
        = w2.state.things.length ∧
      (∀ (i : Nat) (t : Thing α), w2.state.things[i]? = some t →
        ∃ t1 : Thing α,
          (V2.updateThingsSelection checkIntersection w2).state.things[i]? = some t1 ∧
          t1.id = t.id ∧ t1.x = t.x ∧ t1.y = t.y ∧ t1.size = t.size ∧ t1.el = t.el ∧
          t1.selected = checkIntersection t w2.state.rect) ∧
      (w2.state.rect = none →
        ∀ t ∈ (V2.updateThingsSelection checkIntersection w2).state.things,
          t.selected = false) ∧
      (V2.updateThingsSelection checkIntersection w2).tracker = w2.tracker ∧
      (V2.updateThingsSelection checkIntersection w2).state.rect = w2.state.rect ∧
      (V2.updateThingsSelection checkIntersection w2).state.gestureStartPosition
        = w2.state.gestureStartPosition ∧
      (V2.updateThingsSelection checkIntersection w2).state.offsetVector
        = w2.state.offsetVector ∧
      V2.updateThingsSelection checkIntersection (V2.updateThingsSelection checkIntersection w2)
        = V2.updateThingsSelection checkIntersection w2) := by
  refine ⟨⟨?_, ?_, ?_, rfl, rfl, rfl, rfl, rfl, ?_⟩, ⟨?_, ?_, ?_, rfl, rfl, rfl, rfl, ?_⟩⟩
  · simp [V3.updateThingsSelection]
  · intro i t hi
    exact ⟨{ t with selected := checkIntersection t w3.state.rect },
      by simp [V3.updateThingsSelection, hi], rfl, rfl, rfl, rfl, rfl, rfl⟩
  · intro hr t ht
    simp only [V3.updateThingsSelection, List.mem_map] at ht
    obtain ⟨t0, -, rfl⟩ := ht
    simp [hr, hAbsent]
  · simp only [V3.updateThingsSelection, List.map_map]
    congr 2
    apply List.map_congr_left
    intro t _
    simp [hFlag]
  · simp [V2.updateThingsSelection]
  · intro i t hi
    exact ⟨{ t with selected := checkIntersection t w2.state.rect },
      by simp [V2.updateThingsSelection, hi], rfl, rfl, rfl, rfl, rfl, rfl⟩
  · intro hr t ht
    simp only [V2.updateThingsSelection, List.mem_map] at ht
    obtain ⟨t0, -, rfl⟩ := ht
    simp [hr, hAbsent]
  · simp only [V2.updateThingsSelection, List.map_map]
    congr 2
    apply List.map_congr_left
    intro t _
    simp [hFlag]

theorem sampleIntersection_none {α : Type} [LinearOrderedField α] (t : Thing α) :
    sampleIntersection t none = false := rfl

theorem sampleIntersection_flag {α : Type} [LinearOrderedField α] (t : Thing α) (b : Bool)
    (r : Option (Rect α)) :
    sampleIntersection { t with selected := b } r = sampleIntersection t r := by
  cases r <;> rfl


/-- Witness for C9, with the sample intersection test at the sample gesturing
states. -/
theorem updateThingsSelection_spec_witness :
    ((∀ t : Thing ℚ, sampleIntersection t none = false) ∧
      ∀ (t : Thing ℚ) (b : Bool) (r : Option (Rect ℚ)),
        sampleIntersection { t with selected := b } r = sampleIntersection t r) ∧
    (V3.updateThingsSelection sampleIntersection V3.sampleGesture).state.things.length
      = V3.sampleGesture.state.things.length ∧
    V3.updateThingsSelection sampleIntersection
        (V3.updateThingsSelection sampleIntersection V3.sampleGesture)
      = V3.updateThingsSelection sampleIntersection V3.sampleGesture ∧
    (V2.updateThingsSelection sampleIntersection V2.sampleGesture).state.things.length
      = V2.sampleGesture.state.things.length ∧
    V2.updateThingsSelection sampleIntersection
        (V2.updateThingsSelection sampleIntersection V2.sampleGesture)
      = V2.updateThingsSelection sampleIntersection V2.sampleGesture :=
  ⟨⟨sampleIntersection_none, sampleIntersection_flag⟩,
    (updateThingsSelection_spec sampleIntersection V3.sampleGesture V2.sampleGesture
      sampleIntersection_none sampleIntersection_flag).1.1,
    (updateThingsSelection_spec sampleIntersection V3.sampleGesture V2.sampleGesture
      sampleIntersection_none sampleIntersection_flag).1.2.2.2.2.2.2.2.2,
    (updateThingsSelection_spec sampleIntersection V3.sampleGesture V2.sampleGesture
      sampleIntersection_none sampleIntersection_flag).2.1,
    (updateThingsSelection_spec sampleIntersection V3.sampleGesture V2.sampleGesture
      sampleIntersection_none sampleIntersection_flag).2.2.2.2.2.2.2.2⟩

/-! ## A rectangle that keeps its size moves nothing -/

theorem V3.sampleDrag_reached :
    V3.run sampleHypot sampleIntersection (V3.start sampleThings)
      [.pointerDown 1 ⟨0, 0⟩, .pointerMove 1 ⟨1 / 2, 1 / 2⟩] = V3.sampleDrag := by
  simp [V3.sampleDrag, sampleThings, V3.run, V3.step, V3.onPointerDown, V3.onPointerMove,
    V3.start, V3.updateRect, V3.minNumberOfFingerForGesture, V3.updateGestureStartPosition,
    V3.updateThingsSelection, V3.saveGestureSizeStart, Tracker.seen, Tracker.size,
    Tracker.valuesByAge, Points.bbox, Points.findMinimum, Rects.maxFromCorners,
    sampleIntersection]

/-- Whatever `hypot` is, `rectGrowth` reads only the widths and heights. -/
theorem Util.rectGrowth_of_sizes {α : Type} [LinearOrderedField α] (hypot : α → α → α)
    (initialSize currentSize : Rect α) :
    Util.rectGrowth hypot initialSize currentSize =
      hypot (-(initialSize.width / 2)) (-(initialSize.height / 2)) -
        hypot (-(currentSize.width / 2)) (-(currentSize.height / 2)) := by
  simp only [Util.rectGrowth, Points.distance, Rects.center, sub_add_cancel_left]

theorem Util.rectGrowth_same_size {α : Type} [LinearOrderedField α] (hypot : α → α → α)
    (s r : Rect α) (hw : s.width = r.width) (hh : s.height = r.height) :
    Util.rectGrowth hypot s r = 0 := by
  rw [Util.rectGrowth_of_sizes, hw, hh, sub_self]

theorem Util.vectorFromMiddle_same_size {α : Type} [LinearOrderedField α] (hypot : α → α → α)
    (s r : Rect α) (point : Point α) (hw : s.width = r.width) (hh : s.height = r.height) :
    Util.vectorFromMiddle hypot (some r) point s = some ⟨0, 0⟩ := by
  simp [Util.vectorFromMiddle, Util.rectGrowth_same_size hypot s r hw hh, Points.multiply]

theorem Numbers.clamp_of_mem_unit {α : Type} [LinearOrderedField α] (v : α) (h0 : 0 ≤ v)
    (h1 : v ≤ 1) : Numbers.clamp v 0 1 = v := by
  unfold Numbers.clamp
  rw [if_neg (not_lt.mpr h0), if_neg (not_lt.mpr h1)]

theorem V3.moveThing_same_size {α : Type} [LinearOrderedField α] (hypot : α → α → α)
    (s r : Rect α) (t : Thing α) (hw : s.width = r.width) (hh : s.height = r.height)
    (hunit : t.selected = true → 0 ≤ t.x ∧ t.x ≤ 1 ∧ 0 ≤ t.y ∧ t.y ≤ 1) :
    (V3.moveThing hypot r s t).1 = t := by
  cases hsel : t.selected with
  | false => rw [V3.moveThing_of_not_selected hypot r s t hsel]
  | true =>
    obtain ⟨hx0, hx1, hy0, hy1⟩ := hunit hsel
    simp only [V3.moveThing, hsel, if_true, Util.vectorFromMiddle_same_size hypot s r _ hw hh,
      Points.sum, add_zero, Numbers.clamp_of_mem_unit t.x hx0 hx1,
      Numbers.clamp_of_mem_unit t.y hy0 hy1]
    obtain ⟨id, x, y, selected, size, el⟩ := t
    simp only at hsel
    rw [hsel]

/-- In exact arithmetic `rectGrowth` reads only the widths and heights of its
two rectangles. So when `gestureSizeStart` and `rect` agree in width and
height, `rectGrowth` is 0, `vectorFromMiddle` is the zero vector for every
entity position, and a gesturing frame tick keeps `rect` and leaves every
selected entity that lies in the unit square where it was. Rounded to doubles
`x - (x + w / 2)` depends on `x`, so this is not a statement about the values
the script computes, except for zero-area rectangles. -/
theorem same_size_gesture_moves_nothing_exact {α : Type} [LinearOrderedField α] (hypot : α → α → α)
    (w : V3.World α) (r s : Rect α) (g : Point α)
    (hr : w.state.rect = some r) (hg : w.state.gestureStartPosition = some g)
    (hs : w.state.gestureSizeStart = some s)
    (hw : s.width = r.width) (hh : s.height = r.height) :
    (∀ a b a1 b1 : Rect α, a.width = a1.width → a.height = a1.height →
      b.width = b1.width → b.height = b1.height →
      Util.rectGrowth hypot a b = Util.rectGrowth hypot a1 b1) ∧
    Util.rectGrowth hypot s r = 0 ∧
    (∀ point : Point α, Util.vectorFromMiddle hypot (some r) point s = some ⟨0, 0⟩) ∧
    (V3.use hypot w).1.state.rect = some r ∧
    (∀ (i : Nat) (t : Thing α), w.state.things[i]? = some t → t.selected = true →
      0 ≤ t.x → t.x ≤ 1 → 0 ≤ t.y → t.y ≤ 1 →
      (V3.use hypot w).1.state.things[i]? = some t) := by
  refine ⟨?_, Util.rectGrowth_same_size hypot s r hw hh,
    fun point => Util.vectorFromMiddle_same_size hypot s r point hw hh, ?_, ?_⟩
  · intro a b a1 b1 h1 h2 h3 h4
    rw [Util.rectGrowth_of_sizes, Util.rectGrowth_of_sizes, h1, h2, h3, h4]
  · rw [V3.use_of_gesturing hypot w r g s hr hg hs]
    simp only [V3.updateGestureStartPosition_rect, hr]
  · intro i t hi hsel hx0 hx1 hy0 hy1
    rw [V3.use_of_gesturing hypot w r g s hr hg hs]
    simp only [List.map_map, List.getElem?_map, hi, Option.map_some', Function.comp]
    rw [V3.moveThing_same_size hypot s r t hw hh (fun _ => ⟨hx0, hx1, hy0, hy1⟩)]

/-- An instance with zero-area rectangles: one touch went down at (0, 0) and
was dragged to (1/2, 1/2); the selected entity at (0, 0) stays at (0, 0). -/
theorem same_size_gesture_moves_nothing_exact_instance :
    (V3.sampleDrag.state.rect = some ⟨1 / 2, 1 / 2, 0, 0⟩ ∧
      V3.sampleDrag.state.gestureStartPosition = some ⟨0, 0⟩ ∧
      V3.sampleDrag.state.gestureSizeStart = some ⟨0, 0, 0, 0⟩) ∧
    Util.rectGrowth sampleHypot (⟨0, 0, 0, 0⟩ : Rect ℚ) ⟨1 / 2, 1 / 2, 0, 0⟩ = 0 ∧
    (V3.use sampleHypot V3.sampleDrag).1.state.things[0]?
      = some { id := 0, x := 0, y := 0, selected := true, size := 1 / 10, el := 0 } :=
  ⟨⟨rfl, rfl, rfl⟩,
    (same_size_gesture_moves_nothing_exact sampleHypot V3.sampleDrag ⟨1 / 2, 1 / 2, 0, 0⟩
      ⟨0, 0, 0, 0⟩ ⟨0, 0⟩ rfl rfl rfl rfl rfl).2.1,
    (same_size_gesture_moves_nothing_exact sampleHypot V3.sampleDrag ⟨1 / 2, 1 / 2, 0, 0⟩
      ⟨0, 0, 0, 0⟩ ⟨0, 0⟩ rfl rfl rfl rfl rfl).2.2.2.2 0 _ rfl rfl
      (le_refl 0) zero_le_one (le_refl 0) zero_le_one⟩

end Multitouch
